import Mathlib

/-!
# filpay: rail settlement, balance, withdraw, deposit and the flag loop

A shallow embedding of `src/cmd_rails.js` (`handleRailSettleAll`,
`handleRailSettle`), of `src/cli.js` (`handleBalance`, `handleWithdraw`, the
flag loop of `main`) and of `src/cmd_deposit.js` (`handleDeposit`).

Conventions of the embedding.

* Every `await`ed call on the chain is a field of a record of functions
  `σ → Except JsError α × σ`: the chain is an arbitrary deterministic
  state machine on `σ`, and a call either returns a value or throws.
* JavaScript `bigint` amounts are `Int` (arbitrary precision, exact).
* The local arrays `settled`, `skipped`, `failed` and the lines written with
  `console.log` are fields of the state threaded through the loop; every
  chain call is also appended to `calls`, so that "never submitted" is a
  statement about that list.
* A `console.log` line is a constructor carrying the values interpolated in
  the template; `ethers.formatUnits(x, 18)` is left unapplied, the line
  carries `x` in base units (1.0 USDFC = 10^18).
* The token argument is the literal `'USDFC'` at every call site and is left
  out of the call signatures.
-/

namespace FilPay

/-! ## Values -/

/-- A thrown JavaScript `Error`, as the SDK and `ethers` throw them: the
handlers only read `error.message`, a string. -/
structure JsError where
  message : String
deriving DecidableEq, Repr

/-- The two kinds of value the flag loop of `main` stores in `flags`:
`true` for a bare `--name`, the following argument otherwise. -/
inductive FlagValue where
  | flag : FlagValue
  | value (s : String) : FlagValue
deriving DecidableEq, Repr

/-- The `flags` object: the entries that were assigned, most recent first. -/
structure Flags where
  entries : List (String × FlagValue)
deriving DecidableEq, Repr

/-- The own property `name` of `flags`, `none` when it has none. For the names
the handlers read (`key`, `preview`, `json`, `detailed`, `account`, `to`,
`yes`), which `Object.prototype` does not have, this is the property read
`flags.name`, `none` being `undefined`. -/
def Flags.get (flags : Flags) (name : String) : Option FlagValue :=
  flags.entries.lookup name

/-- JavaScript truthiness of a flag value: `undefined` and `''` are falsy. -/
def truthy : Option FlagValue → Bool
  | none => false
  | some FlagValue.flag => true
  | some (FlagValue.value s) => !(s == "")

/-- JavaScript `haystack.includes(needle)`: does `needle` occur in `haystack`? -/
def includes (haystack needle : String) : Bool :=
  haystack.data.tails.any (fun t => needle.data.isPrefixOf t)

/-- JavaScript `payer.substring(0, 10)`: the first ten characters. -/
def substring10 (payer : String) : String :=
  String.mk (payer.data.take 10)

/-- One `ethers.Wallet`: only `wallet.address` is read. -/
structure Wallet where
  address : String
deriving DecidableEq, Repr

/-- An element of the array returned by `getRailsAsPayee`; only `railId` is
read. -/
structure RailSummary where
  railId : Nat
deriving DecidableEq, Repr

/-- The record returned by `getRail`; `from_` and `to_` are the JavaScript
fields `from` (the payer) and `to` (the payee). -/
structure Rail where
  from_ : String
  to_ : String
  endEpoch : Int
deriving DecidableEq, Repr

/-- The record returned by `getSettlementAmounts`. -/
structure SettlementAmounts where
  paymentAmount : Int
  settlementFee : Int
deriving DecidableEq, Repr

/-- The object returned by `settle`: `tx.hash`, and `tx.wait()` is
`PaymentsService.wait tx`. -/
structure TransactionResponse where
  hash : String
deriving DecidableEq, Repr

/-- The receipt returned by `tx.wait()`; `status` is `null | number`. -/
structure TransactionReceipt where
  status : Option Nat
  blockNumber : Nat
  gasUsed : Nat
deriving DecidableEq, Repr

/-- The calls of `PaymentsService` (and `tx.wait`) that
`handleRailSettleAll` awaits, over a chain state `σ`. -/
structure PaymentsService (σ : Type) where
  getRailsAsPayee : σ → Except JsError (List RailSummary) × σ
  getRail : Nat → σ → Except JsError Rail × σ
  getSettlementAmounts : String → String → σ → Except JsError SettlementAmounts × σ
  settle : String → σ → Except JsError TransactionResponse × σ
  wait : TransactionResponse → σ → Except JsError TransactionReceipt × σ

/-- A chain call made by the handler, with its arguments. -/
inductive Call where
  | getRailsAsPayee : Call
  | getRail (railId : Nat) : Call
  | getSettlementAmounts (payer payee : String) : Call
  | settle (payer : String) : Call
  | wait (tx : TransactionResponse) : Call
deriving DecidableEq, Repr

/-- Is the call a transaction submission (`paymentsService.settle`)? -/
def Call.isSettle : Call → Bool
  | Call.settle _ => true
  | _ => false

/-- An element of `settled`: `{ railId, payer, amount, fee }` in preview mode,
`{ railId, payer, amount, txHash }` in execute mode. -/
structure SettledEntry where
  railId : Nat
  payer : String
  amount : Int
  fee : Option Int
  txHash : Option String
deriving DecidableEq, Repr

/-- An element of `skipped`: `{ railId, payer }`. -/
structure SkippedEntry where
  railId : Nat
  payer : String
deriving DecidableEq, Repr

/-- An element of `failed`: `{ railId, payer, error: 'Transaction failed' }`
for a receipt whose status is not 1, `{ railId, error: error.message }` from
the `catch`. -/
structure FailedEntry where
  railId : Nat
  payer : Option String
  error : String
deriving DecidableEq, Repr

/-- The lines `handleRailSettleAll` writes, in source order. Amounts are in
base units. -/
inductive Line where
  /-- Line 198: `🔍 Preview Settle All Rails` or `💳 Settle All Rails`. -/
  | header (isPreview : Bool) : Line
  /-- Line 199: `Address: ${wallet.address}`. -/
  | address (address : String) : Line
  /-- Line 203: `Found ${asPayeeRails.length} rails as payee`. -/
  | found (count : Nat) : Line
  /-- Line 223: `⊘ Rail #${railId} (${payer.substring(0, 10)}...): No payment due`. -/
  | noPaymentDue (railId : Nat) (payer10 : String) : Line
  /-- Line 231: `→ Rail #${railId} (${payer.substring(0, 10)}...)`. -/
  | previewRail (railId : Nat) (payer10 : String) : Line
  /-- Line 232: `  Payment:     ${formatUnits(amounts.paymentAmount)} USDFC`. -/
  | previewPayment (paymentAmount : Int) : Line
  /-- Line 233: `  Fee:         ${formatUnits(amounts.settlementFee)} USDFC`. -/
  | previewFee (settlementFee : Int) : Line
  /-- Line 234: `  Net to you:  ${formatUnits(netAmount)} USDFC`. -/
  | previewNet (netAmount : Int) : Line
  /-- Line 239: `→ Rail #${railId} (...): Settling ${formatUnits(paymentAmount)} USDFC...`. -/
  | settling (railId : Nat) (payer10 : String) (paymentAmount : Int) : Line
  /-- Line 245: `  ✓ Confirmed in block ${receipt.blockNumber}`. -/
  | confirmed (blockNumber : Nat) : Line
  /-- Line 248: `  ✗ Transaction failed`. -/
  | transactionFailed : Line
  /-- Line 252: `  ⊘ Rail #${railId}: ${label}`, the label being
  `'Already settled'` or `'Error'`. -/
  | railError (railId : Nat) (label : String) : Line
  /-- Line 257: the rule of `═`. -/
  | rule : Line
  /-- Line 259: `→ Would settle: ${settled.length}`. -/
  | wouldSettle (count : Nat) : Line
  /-- Line 260: `⊘ Would skip:   ${skipped.length}`. -/
  | wouldSkip (count : Nat) : Line
  /-- Line 265: `💰 Settlement Summary:`. -/
  | summaryHeader : Line
  /-- Line 266: `   Total payment:  ${formatUnits(totalAmount)} USDFC`. -/
  | totalPayment (totalAmount : Int) : Line
  /-- Line 267: `   Total fees:     ${formatUnits(totalFees)} USDFC`. -/
  | totalFeesLine (totalFees : Int) : Line
  /-- Line 268: `   Net to you:     ${formatUnits(totalNet)} USDFC`. -/
  | totalNetLine (totalNet : Int) : Line
  /-- Line 269: `⚡ Run without --preview flag to execute settlements`. -/
  | runWithoutPreview : Line
  /-- Line 272: `✓ Settled: ${settled.length}`. -/
  | settledCount (count : Nat) : Line
  /-- Line 273: `⊘ Skipped: ${skipped.length}`. -/
  | skippedCount (count : Nat) : Line
  /-- Line 274: `✗ Failed:  ${failed.length}`. -/
  | failedCount (count : Nat) : Line
  /-- Line 277: `💰 Total settled: ${formatUnits(Σ amount)} USDFC`. -/
  | totalSettled (total : Int) : Line
deriving DecidableEq, Repr

/-- The mutable state of one run of `handleRailSettleAll`: the three arrays,
the console, the calls made so far and the chain. -/
structure LoopState (σ : Type) where
  settled : List SettledEntry
  skipped : List SkippedEntry
  failed : List FailedEntry
  log : List Line
  calls : List Call
  world : σ

/-- The state when the loop is entered: `settled = []`, `skipped = []`,
`failed = []`. -/
def LoopState.init {σ : Type} (log : List Line) (calls : List Call) (world : σ) :
    LoopState σ :=
  { settled := [], skipped := [], failed := [], log := log, calls := calls, world := world }

/-! ## `handleRailSettleAll` -/

/-- The `catch (error)` block, lines 250-253. -/
def catchRail {σ : Type} (railId : Nat) (error : JsError) (st : LoopState σ) : LoopState σ :=
  { st with
    failed := st.failed ++ [{ railId := railId, payer := none, error := error.message }]
    log := st.log ++ [Line.railError railId
      (if includes error.message "RailInactiveOrSettled" then "Already settled" else "Error")] }

/-- The body of the `for` loop, lines 210-254, for one `railSummary`: the
`try` block call by call, each `Except.error` branch being the `catch`. The
chain calls are the only steps that throw: `payer` is a string and the
amounts are `bigint`s, so `substring`, the subtraction and `formatUnits` go
through. -/
def processRail {σ : Type} (paymentsService : PaymentsService σ) (isPreview : Bool)
    (wallet : Wallet) (st : LoopState σ) (railSummary : RailSummary) : LoopState σ :=
  let railId := railSummary.railId
  match paymentsService.getRail railId st.world with
  | (Except.error error, w1) =>
    catchRail railId error { st with calls := st.calls ++ [Call.getRail railId], world := w1 }
  | (Except.ok rail, w1) =>
    let payer := rail.from_
    match paymentsService.getSettlementAmounts payer wallet.address w1 with
    | (Except.error error, w2) =>
      catchRail railId error
        { st with
          calls := st.calls ++
            [Call.getRail railId, Call.getSettlementAmounts payer wallet.address]
          world := w2 }
    | (Except.ok amounts, w2) =>
      if amounts.paymentAmount = 0 then
        { st with
          skipped := st.skipped ++ [{ railId := railId, payer := payer }]
          log := st.log ++ [Line.noPaymentDue railId (substring10 payer)]
          calls := st.calls ++
            [Call.getRail railId, Call.getSettlementAmounts payer wallet.address]
          world := w2 }
      else if isPreview then
        let netAmount := amounts.paymentAmount - amounts.settlementFee
        { st with
          settled := st.settled ++
            [{ railId := railId, payer := payer, amount := amounts.paymentAmount,
               fee := some amounts.settlementFee, txHash := none }]
          log := st.log ++
            [Line.previewRail railId (substring10 payer),
             Line.previewPayment amounts.paymentAmount,
             Line.previewFee amounts.settlementFee,
             Line.previewNet netAmount]
          calls := st.calls ++
            [Call.getRail railId, Call.getSettlementAmounts payer wallet.address]
          world := w2 }
      else
        match paymentsService.settle payer w2 with
        | (Except.error error, w3) =>
          catchRail railId error
            { st with
              log := st.log ++ [Line.settling railId (substring10 payer) amounts.paymentAmount]
              calls := st.calls ++
                [Call.getRail railId, Call.getSettlementAmounts payer wallet.address,
                 Call.settle payer]
              world := w3 }
        | (Except.ok tx, w3) =>
          match paymentsService.wait tx w3 with
          | (Except.error error, w4) =>
            catchRail railId error
              { st with
                log := st.log ++
                  [Line.settling railId (substring10 payer) amounts.paymentAmount]
                calls := st.calls ++
                  [Call.getRail railId, Call.getSettlementAmounts payer wallet.address,
                   Call.settle payer, Call.wait tx]
                world := w4 }
          | (Except.ok receipt, w4) =>
            if receipt.status = some 1 then
              { st with
                settled := st.settled ++
                  [{ railId := railId, payer := payer, amount := amounts.paymentAmount,
                     fee := none, txHash := some tx.hash }]
                log := st.log ++
                  [Line.settling railId (substring10 payer) amounts.paymentAmount,
                   Line.confirmed receipt.blockNumber]
                calls := st.calls ++
                  [Call.getRail railId, Call.getSettlementAmounts payer wallet.address,
                   Call.settle payer, Call.wait tx]
                world := w4 }
            else
              { st with
                failed := st.failed ++
                  [{ railId := railId, payer := some payer, error := "Transaction failed" }]
                log := st.log ++
                  [Line.settling railId (substring10 payer) amounts.paymentAmount,
                   Line.transactionFailed]
                calls := st.calls ++
                  [Call.getRail railId, Call.getSettlementAmounts payer wallet.address,
                   Call.settle payer, Call.wait tx]
                world := w4 }

/-- The `for (const railSummary of asPayeeRails)` loop. -/
def settleLoop {σ : Type} (paymentsService : PaymentsService σ) (isPreview : Bool)
    (wallet : Wallet) (asPayeeRails : List RailSummary) (st : LoopState σ) : LoopState σ :=
  asPayeeRails.foldl (processRail paymentsService isPreview wallet) st

/-- Line 262 (and 277): `settled.reduce((sum, s) => sum + s.amount, 0n)`. -/
def totalAmount (settled : List SettledEntry) : Int :=
  settled.foldl (fun sum s => sum + s.amount) 0

/-- The operand `(s.fee || 0n)`: `undefined` and `0n` are falsy. -/
def feeOrZero (s : SettledEntry) : Int :=
  match s.fee with
  | none => 0
  | some fee => if fee = 0 then 0 else fee

/-- Line 263: `settled.reduce((sum, s) => sum + (s.fee || 0n), 0n)`. -/
def totalFees (settled : List SettledEntry) : Int :=
  settled.foldl (fun sum s => sum + feeOrZero s) 0

/-- Line 264: `totalNet = totalAmount - totalFees`. -/
def totalNet (settled : List SettledEntry) : Int :=
  totalAmount settled - totalFees settled

/-- The summary written after the loop, lines 256-279. -/
def summary (isPreview : Bool) (settled : List SettledEntry) (skipped : List SkippedEntry)
    (failed : List FailedEntry) : List Line :=
  [Line.rule] ++
  (if isPreview then
    [Line.wouldSettle settled.length, Line.wouldSkip skipped.length] ++
    (if settled.length > 0 then
      [Line.summaryHeader, Line.totalPayment (totalAmount settled),
       Line.totalFeesLine (totalFees settled), Line.totalNetLine (totalNet settled),
       Line.runWithoutPreview]
    else [])
  else
    [Line.settledCount settled.length, Line.skippedCount skipped.length,
     Line.failedCount failed.length] ++
    (if settled.length > 0 then [Line.totalSettled (totalAmount settled)] else []))

/-- What one invocation of `handleRailSettleAll` leaves behind: the error it
threw, if any, and the final state (arrays, console, calls, chain). -/
structure Run (σ : Type) where
  thrown : Option JsError
  state : LoopState σ

/-- The function `handleRailSettleAll(provider, flags)`, lines 181-280.
`newWallet` is `new ethers.Wallet(privateKey, provider)`, which throws on a
malformed key. -/
def handleRailSettleAll {σ : Type} (newWallet : FlagValue → Except JsError Wallet)
    (paymentsService : PaymentsService σ) (flags : Flags) (world : σ) : Run σ :=
  match flags.get "key" with
  | none =>
    { thrown := some { message := "--key flag is required for settle-all" }
      state := LoopState.init [] [] world }
  | some privateKey =>
    if truthy (some privateKey) = false then
      { thrown := some { message := "--key flag is required for settle-all" }
        state := LoopState.init [] [] world }
    else
      match newWallet privateKey with
      | Except.error error => { thrown := some error, state := LoopState.init [] [] world }
      | Except.ok wallet =>
        let isPreview := truthy (flags.get "preview")
        let log0 := [Line.header isPreview, Line.address wallet.address]
        match paymentsService.getRailsAsPayee world with
        | (Except.error error, w0) =>
          { thrown := some error, state := LoopState.init log0 [Call.getRailsAsPayee] w0 }
        | (Except.ok asPayeeRails, w0) =>
          let st := settleLoop paymentsService isPreview wallet asPayeeRails
            (LoopState.init (log0 ++ [Line.found asPayeeRails.length]) [Call.getRailsAsPayee] w0)
          { thrown := none
            state := { st with log := st.log ++ summary isPreview st.settled st.skipped st.failed } }

/-! ## Reading a run -/

/-- The loop run on `rails` from empty arrays, an empty console and no
recorded call, on the chain state `world`: what the rails of `rails`
contribute by themselves. -/
def batch {σ : Type} (paymentsService : PaymentsService σ) (isPreview : Bool)
    (wallet : Wallet) (rails : List RailSummary) (world : σ) : LoopState σ :=
  settleLoop paymentsService isPreview wallet rails (LoopState.init [] [] world)

/-- The state `st` followed by what `d` recorded: arrays, console and calls
are concatenated, the chain state is that of `d`. -/
def LoopState.extend {σ : Type} (st d : LoopState σ) : LoopState σ :=
  { settled := st.settled ++ d.settled
    skipped := st.skipped ++ d.skipped
    failed := st.failed ++ d.failed
    log := st.log ++ d.log
    calls := st.calls ++ d.calls
    world := d.world }

/-- The handler got as far as the loop: the key is present and truthy, the
wallet was built, and `getRailsAsPayee` returned `asPayeeRails`, leaving the
chain in `w0`. -/
def Enumerated {σ : Type} (newWallet : FlagValue → Except JsError Wallet)
    (paymentsService : PaymentsService σ) (flags : Flags) (world : σ)
    (wallet : Wallet) (asPayeeRails : List RailSummary) (w0 : σ) : Prop :=
  ∃ privateKey, flags.get "key" = some privateKey ∧ truthy (some privateKey) = true ∧
    newWallet privateKey = Except.ok wallet ∧
    paymentsService.getRailsAsPayee world = (Except.ok asPayeeRails, w0)

/-- The rail ids of `settled`, in order. -/
def LoopState.settledIds {σ : Type} (st : LoopState σ) : List Nat :=
  st.settled.map SettledEntry.railId

/-- The rail ids of `skipped`, in order. -/
def LoopState.skippedIds {σ : Type} (st : LoopState σ) : List Nat :=
  st.skipped.map SkippedEntry.railId

/-- The rail ids of `failed`, in order. -/
def LoopState.failedIds {σ : Type} (st : LoopState σ) : List Nat :=
  st.failed.map FailedEntry.railId

/-- Exactly one of three propositions holds. -/
def ExactlyOne (a b c : Prop) : Prop :=
  (a ∧ ¬ b ∧ ¬ c) ∨ (¬ a ∧ b ∧ ¬ c) ∨ (¬ a ∧ ¬ b ∧ c)

/-- A step of the `try` block for `railSummary` throws `error` when the block
is entered on the chain state `w`, leaving the chain in `w'`: one constructor
per awaited call of lines 215-241. -/
inductive Throws {σ : Type} (paymentsService : PaymentsService σ) (isPreview : Bool)
    (wallet : Wallet) (railSummary : RailSummary) (w : σ) (error : JsError) (w' : σ) : Prop
  | getRail
      (h1 : paymentsService.getRail railSummary.railId w = (Except.error error, w')) :
      Throws paymentsService isPreview wallet railSummary w error w'
  | getSettlementAmounts (rail : Rail) (w1 : σ)
      (h1 : paymentsService.getRail railSummary.railId w = (Except.ok rail, w1))
      (h2 : paymentsService.getSettlementAmounts rail.from_ wallet.address w1 =
        (Except.error error, w')) :
      Throws paymentsService isPreview wallet railSummary w error w'
  | settle (rail : Rail) (w1 : σ) (amounts : SettlementAmounts) (w2 : σ)
      (h1 : paymentsService.getRail railSummary.railId w = (Except.ok rail, w1))
      (h2 : paymentsService.getSettlementAmounts rail.from_ wallet.address w1 =
        (Except.ok amounts, w2))
      (hamount : amounts.paymentAmount ≠ 0) (hmode : isPreview = false)
      (h3 : paymentsService.settle rail.from_ w2 = (Except.error error, w')) :
      Throws paymentsService isPreview wallet railSummary w error w'
  | wait (rail : Rail) (w1 : σ) (amounts : SettlementAmounts) (w2 : σ)
      (tx : TransactionResponse) (w3 : σ)
      (h1 : paymentsService.getRail railSummary.railId w = (Except.ok rail, w1))
      (h2 : paymentsService.getSettlementAmounts rail.from_ wallet.address w1 =
        (Except.ok amounts, w2))
      (hamount : amounts.paymentAmount ≠ 0) (hmode : isPreview = false)
      (h3 : paymentsService.settle rail.from_ w2 = (Except.ok tx, w3))
      (h4 : paymentsService.wait tx w3 = (Except.error error, w')) :
      Throws paymentsService isPreview wallet railSummary w error w'

/-- The amount a line displays through `ethers.formatUnits`, if it displays
one. -/
def Line.amountShown : Line → Option Int
  | Line.previewPayment x => some x
  | Line.previewFee x => some x
  | Line.previewNet x => some x
  | Line.settling _ _ x => some x
  | Line.totalPayment x => some x
  | Line.totalFeesLine x => some x
  | Line.totalNetLine x => some x
  | Line.totalSettled x => some x
  | _ => none

/-- The per-rail net amount a line displays (line 234), if it is such a
line. -/
def Line.netShown : Line → Option Int
  | Line.previewNet x => some x
  | _ => none

/-! ## The three rails of Scenarios C and D -/

/-- One token, 10^18 base units. -/
def usdfc : Int := 10 ^ 18

/-- The wallet built from a key given with a value; a bare `--key` is not a
key. -/
def scenarioWallet : FlagValue → Except JsError Wallet
  | FlagValue.value _ => Except.ok { address := "0xPayee" }
  | FlagValue.flag => Except.error { message := "invalid private key" }

/-- The chain of Scenarios C and D. Rails 1, 2, 3 have payers `0xPayer1`,
`0xPayer2`, `0xPayer3`; rail 1 owes nothing, rail 2 owes 10.0 with fee 0.2,
rail 3 owes 5.0 with fee 0.1; a settlement for payer 2 confirms with status 1,
any other with status 0. The chain state counts the submitted transactions. -/
def scenarioService : PaymentsService Nat where
  getRailsAsPayee := fun w => (Except.ok [{ railId := 1 }, { railId := 2 }, { railId := 3 }], w)
  getRail := fun railId w =>
    if railId = 1 then (Except.ok { from_ := "0xPayer1", to_ := "0xPayee", endEpoch := 0 }, w)
    else if railId = 2 then
      (Except.ok { from_ := "0xPayer2", to_ := "0xPayee", endEpoch := 0 }, w)
    else if railId = 3 then
      (Except.ok { from_ := "0xPayer3", to_ := "0xPayee", endEpoch := 0 }, w)
    else (Except.error { message := "rail not found" }, w)
  getSettlementAmounts := fun payer _ w =>
    if payer = "0xPayer1" then (Except.ok { paymentAmount := 0, settlementFee := 0 }, w)
    else if payer = "0xPayer2" then
      (Except.ok { paymentAmount := 10 * usdfc, settlementFee := 2 * usdfc / 10 }, w)
    else (Except.ok { paymentAmount := 5 * usdfc, settlementFee := usdfc / 10 }, w)
  settle := fun payer w => (Except.ok { hash := "0xtx" ++ payer }, w + 1)
  wait := fun tx w =>
    if tx.hash = "0xtx0xPayer2" then
      (Except.ok { status := some 1, blockNumber := 100 + w, gasUsed := 21000 }, w)
    else (Except.ok { status := some 0, blockNumber := 100 + w, gasUsed := 21000 }, w)

/-- The flags of `rails settle-all --key 0xKEY`. -/
def executeFlags : Flags :=
  { entries := [("key", FlagValue.value "0xKEY")] }

/-- The flags of `rails settle-all --key 0xKEY --preview`. -/
def previewFlags : Flags :=
  { entries := [("preview", FlagValue.flag), ("key", FlagValue.value "0xKEY")] }

/-- Scenario C: the execute-mode run over the three rails. -/
def scenarioC : Run Nat :=
  handleRailSettleAll scenarioWallet scenarioService executeFlags 0

/-- Scenario D: the preview-mode run over the same three rails. -/
def scenarioD : Run Nat :=
  handleRailSettleAll scenarioWallet scenarioService previewFlags 0

/-- The chain of Scenarios C and D with two faults: previewing rail 2 throws
the recognised `RailInactiveOrSettled` error, and submitting the settlement of
rail 3 throws another error. -/
def raceService : PaymentsService Nat where
  getRailsAsPayee := scenarioService.getRailsAsPayee
  getRail := scenarioService.getRail
  getSettlementAmounts := fun payer payee w =>
    if payer = "0xPayer2" then
      (Except.error { message := "execution reverted: RailInactiveOrSettled(2)" }, w)
    else scenarioService.getSettlementAmounts payer payee w
  settle := fun payer w =>
    if payer = "0xPayer3" then (Except.error { message := "nonce too low" }, w)
    else scenarioService.settle payer w
  wait := scenarioService.wait

/-- The execute-mode run over the three rails on the faulty chain. -/
def raceRun : Run Nat :=
  handleRailSettleAll scenarioWallet raceService executeFlags 0

/-! ## `handleBalance` -/

/-- The four values returned by `getAccountInfoIfSettled`. -/
structure AccountInfo where
  fundedUntilEpoch : Int
  currentFunds : Int
  availableFunds : Int
  currentLockupRate : Int
deriving DecidableEq, Repr

/-- The two contract reads `handleBalance` awaits: the account of the payments
contract (line 138) and `balanceOf` on the token (line 173). -/
structure BalanceContracts (σ : Type) where
  getAccountInfoIfSettled : FlagValue → σ → Except JsError AccountInfo × σ
  balanceOf : FlagValue → σ → Except JsError Int × σ

/-- The constant `ethers.MaxUint256`. -/
def MaxUint256 : Int := Int.ofNat (2 ^ 256 - 1)

/-- The lines `handleBalance` writes, in source order. Amounts are in base
units. -/
inductive BalanceLine where
  /-- Line 153: the JSON object, built from the address and the four values. -/
  | json (address : FlagValue) (info : AccountInfo) : BalanceLine
  /-- Line 157: `💰 Account Balance`. -/
  | title : BalanceLine
  /-- Line 158: `Address: ${accountAddress}`. -/
  | address (address : FlagValue) : BalanceLine
  /-- Line 159: `Token: USDFC (${USDFC_ADDRESS})`. -/
  | token : BalanceLine
  /-- Line 161: `Funded Until: epoch ...`, `none` being `∞ (no active lockup)`. -/
  | fundedUntil (epoch : Option Int) : BalanceLine
  /-- Line 162: `Current Funds: ${formatUnits(currentFunds)} USDFC`. -/
  | currentFunds (amount : Int) : BalanceLine
  /-- Line 163: `Available: ${formatUnits(availableFunds)} USDFC`. -/
  | available (amount : Int) : BalanceLine
  /-- Line 164: `Lockup Rate: ${formatUnits(currentLockupRate)} USDFC/epoch`. -/
  | lockupRate (amount : Int) : BalanceLine
  /-- Line 168: `═══ Detailed Information ═══`. -/
  | detailedHeader : BalanceLine
  /-- Line 175: `Wallet Balance: ${formatUnits(walletBalance)} USDFC`. -/
  | walletBalance (amount : Int) : BalanceLine
  /-- Line 176: `Locked Amount: ${formatUnits(currentFunds - availableFunds)} USDFC`. -/
  | lockedAmount (amount : Int) : BalanceLine
  /-- Line 177: `Total (Wallet + Contract): ${formatUnits(walletBalance + currentFunds)}`. -/
  | total (amount : Int) : BalanceLine
  /-- Line 181: `✓ No active payment rails - all funds available for withdrawal`. -/
  | fullyWithdrawable : BalanceLine
deriving DecidableEq, Repr

/-- What one invocation of `handleBalance` leaves behind: the error it threw,
if any, the lines it wrote, and the chain. -/
structure BalanceRun (σ : Type) where
  thrown : Option JsError
  log : List BalanceLine
  world : σ

/-- The function `handleBalance(provider, flags)`, lines 124-183. -/
def handleBalance {σ : Type} (contracts : BalanceContracts σ) (flags : Flags) (world : σ) :
    BalanceRun σ :=
  match flags.get "account" with
  | none =>
    { thrown := some { message := "--account flag is required for balance command" }
      log := [], world := world }
  | some accountAddress =>
    if truthy (some accountAddress) = false then
      { thrown := some { message := "--account flag is required for balance command" }
        log := [], world := world }
    else
      match contracts.getAccountInfoIfSettled accountAddress world with
      | (Except.error error, w1) => { thrown := some error, log := [], world := w1 }
      | (Except.ok info, w1) =>
        if truthy (flags.get "json") then
          { thrown := none, log := [BalanceLine.json accountAddress info], world := w1 }
        else
          let log1 :=
            [BalanceLine.title, BalanceLine.address accountAddress, BalanceLine.token,
             BalanceLine.fundedUntil
               (if info.fundedUntilEpoch = MaxUint256 then none else some info.fundedUntilEpoch),
             BalanceLine.currentFunds info.currentFunds,
             BalanceLine.available info.availableFunds,
             BalanceLine.lockupRate info.currentLockupRate]
          if truthy (flags.get "detailed") then
            match contracts.balanceOf accountAddress w1 with
            | (Except.error error, w2) =>
              { thrown := some error, log := log1 ++ [BalanceLine.detailedHeader], world := w2 }
            | (Except.ok walletBalance, w2) =>
              { thrown := none
                log := log1 ++
                  [BalanceLine.detailedHeader, BalanceLine.walletBalance walletBalance,
                   BalanceLine.lockedAmount (info.currentFunds - info.availableFunds),
                   BalanceLine.total (walletBalance + info.currentFunds)] ++
                  (if info.currentLockupRate = 0 then [BalanceLine.fullyWithdrawable] else [])
                world := w2 }
          else
            { thrown := none
              log := log1 ++
                (if info.currentLockupRate = 0 then [BalanceLine.fullyWithdrawable] else [])
              world := w1 }

/-- A chain on which every account holds `info` and every wallet holds 7.0. -/
def fixedContracts (info : AccountInfo) : BalanceContracts Unit where
  getAccountInfoIfSettled := fun _ w => (Except.ok info, w)
  balanceOf := fun _ w => (Except.ok (7 * usdfc), w)

/-- The account of Scenario A: 100.0 funded, 40.0 available, lockup rate 2.0. -/
def scenarioA : AccountInfo :=
  { fundedUntilEpoch := 5000, currentFunds := 100 * usdfc, availableFunds := 40 * usdfc,
    currentLockupRate := 2 * usdfc }

/-- An account without lockup: 100.0 funded, all of it available, rate 0. -/
def idleAccount : AccountInfo :=
  { fundedUntilEpoch := MaxUint256, currentFunds := 100 * usdfc,
    availableFunds := 100 * usdfc, currentLockupRate := 0 }

/-- The flags of `balance --account 0xA11CE` followed by the given bare
flags. -/
def balanceFlags (bare : List String) : Flags :=
  { entries := bare.map (fun name => (name, FlagValue.flag)) ++
      [("account", FlagValue.value "0xA11CE")] }

/-! ## Single-transaction commands: `handleWithdraw`, `handleDeposit`, `handleRailSettle` -/

/-- What a handler raised: `byHandler` is one of its own
`throw new Error(message)` statements, `byCall` is the error with which a call
it made (a library function or an awaited chain call) failed. -/
inductive Thrown where
  | byHandler (message : String) : Thrown
  | byCall (error : JsError) : Thrown
deriving DecidableEq, Repr

/-- How an invocation of a handler ends: it returns, it throws, or it stays
pending on a promise that is never resolved. -/
inductive Ending where
  | returned : Ending
  | threw (thrown : Thrown) : Ending
  | pending : Ending
deriving DecidableEq, Repr

/-- What one invocation of a single-transaction handler leaves behind: how it
ended, the lines of type `L` it wrote, the calls of type `C` it made, and the
chain. -/
structure CommandRun (L C σ : Type) where
  ending : Ending
  log : List L
  calls : List C
  world : σ

/-- JavaScript truthiness of a positional argument `args[k]`: `undefined`
(absent) and `''` are falsy. -/
def truthyArg : Option String → Bool
  | none => false
  | some s => !(s == "")

/-- The record returned by `paymentsService.accountInfo`. -/
structure PaymentsAccount where
  funds : Int
  availableFunds : Int
deriving DecidableEq, Repr

/-- The calls of `PaymentsService` (and `tx.wait`) that `handleWithdraw` and
`handleDeposit` await. -/
structure WalletService (σ : Type) where
  accountInfo : σ → Except JsError PaymentsAccount × σ
  withdraw : Int → σ → Except JsError TransactionResponse × σ
  walletBalance : σ → Except JsError Int × σ
  allowance : σ → Except JsError Int × σ
  approve : Int → σ → Except JsError TransactionResponse × σ
  deposit : Int → σ → Except JsError TransactionResponse × σ
  wait : TransactionResponse → σ → Except JsError TransactionReceipt × σ

/-- A chain call made by `handleWithdraw` or `handleDeposit`. -/
inductive WalletCall where
  | accountInfo : WalletCall
  | withdraw (amount : Int) : WalletCall
  | walletBalance : WalletCall
  | allowance : WalletCall
  | approve (amount : Int) : WalletCall
  | deposit (amount : Int) : WalletCall
  | wait (tx : TransactionResponse) : WalletCall
deriving DecidableEq, Repr

/-- Is the call a transaction submission (`withdraw`, `approve` or
`deposit`)? -/
def WalletCall.isSubmission : WalletCall → Bool
  | WalletCall.withdraw _ => true
  | WalletCall.approve _ => true
  | WalletCall.deposit _ => true
  | _ => false

/-- The lines `handleWithdraw` writes (`src/cli.js`), in source order. -/
inductive WithdrawLine where
  /-- Line 202: `💸 Withdraw USDFC`. -/
  | title : WithdrawLine
  /-- Line 203: `From: ${wallet.address}`. -/
  | sender (address : String) : WithdrawLine
  /-- Line 204: `Token: USDFC`. -/
  | token : WithdrawLine
  /-- Line 205: `Amount: ${amountStr} USDFC`. -/
  | amount (amountStr : String) : WithdrawLine
  /-- Line 207: `To: ${recipientAddr}`. -/
  | recipient (recipientAddr : FlagValue) : WithdrawLine
  /-- Line 219: `Checking available funds...`. -/
  | checking : WithdrawLine
  /-- Line 221: `Available: ${formatUnits(accountInfo.availableFunds)} USDFC`. -/
  | available (availableFunds : Int) : WithdrawLine
  /-- Line 228: `📤 Sending transaction...`. -/
  | sending : WithdrawLine
  /-- Line 230: `Transaction hash: ${tx.hash}`. -/
  | txHash (hash : String) : WithdrawLine
  /-- Line 232: `Waiting for confirmation...`. -/
  | waiting : WithdrawLine
  /-- Line 236: `✓ Transaction confirmed in block ${receipt.blockNumber}`. -/
  | confirmed (blockNumber : Nat) : WithdrawLine
  /-- Line 237: `Gas used: ${receipt.gasUsed}`. -/
  | gasUsed (gasUsed : Nat) : WithdrawLine
deriving DecidableEq, Repr

/-- The function `handleWithdraw(provider, amountStr, flags)`, `src/cli.js`
lines 185-241. `parseUnits` is `ethers.parseUnits(amountStr, 18)`, which
throws on text that is not a decimal number. -/
def handleWithdraw {σ : Type} (parseUnits : String → Except JsError Int)
    (newWallet : FlagValue → Except JsError Wallet) (paymentsService : WalletService σ)
    (amountStr : Option String) (flags : Flags) (world : σ) :
    CommandRun WithdrawLine WalletCall σ :=
  match amountStr with
  | none =>
    { ending := Ending.threw (Thrown.byHandler "Amount is required for withdraw command")
      log := [], calls := [], world := world }
  | some amountStr =>
    if truthyArg (some amountStr) = false then
      { ending := Ending.threw (Thrown.byHandler "Amount is required for withdraw command")
        log := [], calls := [], world := world }
    else
      match flags.get "key" with
      | none =>
        { ending := Ending.threw
            (Thrown.byHandler "--key flag is required for withdraw command")
          log := [], calls := [], world := world }
      | some privateKey =>
        if truthy (some privateKey) = false then
          { ending := Ending.threw
              (Thrown.byHandler "--key flag is required for withdraw command")
            log := [], calls := [], world := world }
        else
          let recipientAddr := flags.get "to"
          match parseUnits amountStr with
          | Except.error error =>
            { ending := Ending.threw (Thrown.byCall error)
              log := [], calls := [], world := world }
          | Except.ok amount =>
            match newWallet privateKey with
            | Except.error error =>
              { ending := Ending.threw (Thrown.byCall error)
                log := [], calls := [], world := world }
            | Except.ok wallet =>
              let log0 :=
                [WithdrawLine.title, WithdrawLine.sender wallet.address, WithdrawLine.token,
                 WithdrawLine.amount amountStr] ++
                (match recipientAddr with
                 | some to_ => if truthy (some to_) then [WithdrawLine.recipient to_] else []
                 | none => []) ++
                [WithdrawLine.checking]
              match paymentsService.accountInfo world with
              | (Except.error error, w1) =>
                { ending := Ending.threw (Thrown.byCall error)
                  log := log0, calls := [WalletCall.accountInfo], world := w1 }
              | (Except.ok accountInfo, w1) =>
                let log1 := log0 ++ [WithdrawLine.available accountInfo.availableFunds]
                if accountInfo.availableFunds < amount then
                  { ending := Ending.threw (Thrown.byHandler "Insufficient available funds")
                    log := log1, calls := [WalletCall.accountInfo], world := w1 }
                else
                  match paymentsService.withdraw amount w1 with
                  | (Except.error error, w2) =>
                    { ending := Ending.threw (Thrown.byCall error)
                      log := log1 ++ [WithdrawLine.sending]
                      calls := [WalletCall.accountInfo, WalletCall.withdraw amount]
                      world := w2 }
                  | (Except.ok tx, w2) =>
                    let log2 := log1 ++
                      [WithdrawLine.sending, WithdrawLine.txHash tx.hash, WithdrawLine.waiting]
                    match paymentsService.wait tx w2 with
                    | (Except.error error, w3) =>
                      { ending := Ending.threw (Thrown.byCall error)
                        log := log2
                        calls := [WalletCall.accountInfo, WalletCall.withdraw amount,
                                  WalletCall.wait tx]
                        world := w3 }
                    | (Except.ok receipt, w3) =>
                      if receipt.status = some 1 then
                        { ending := Ending.returned
                          log := log2 ++
                            [WithdrawLine.confirmed receipt.blockNumber,
                             WithdrawLine.gasUsed receipt.gasUsed]
                          calls := [WalletCall.accountInfo, WalletCall.withdraw amount,
                                    WalletCall.wait tx]
                          world := w3 }
                      else
                        { ending := Ending.threw (Thrown.byHandler "Transaction failed")
                          log := log2
                          calls := [WalletCall.accountInfo, WalletCall.withdraw amount,
                                    WalletCall.wait tx]
                          world := w3 }

/-- The lines `handleDeposit` writes (`src/cmd_deposit.js`), in source
order. -/
inductive DepositLine where
  /-- Line 46: `📥 Deposit USDFC`. -/
  | title : DepositLine
  /-- Line 47: `From: ${wallet.address}`. -/
  | sender (address : String) : DepositLine
  /-- Line 48: `Amount: ${amountStr} USDFC`. -/
  | amount (amountStr : String) : DepositLine
  /-- Line 51: `Checking wallet balance...`. -/
  | checkingBalance : DepositLine
  /-- Line 53: `Wallet balance: ${formatUnits(walletBalance)} USDFC`. -/
  | walletBalance (walletBalance : Int) : DepositLine
  /-- Line 60: `Checking allowance...`. -/
  | checkingAllowance : DepositLine
  /-- Line 62: `Current allowance: ${formatUnits(currentAllowance)} USDFC`. -/
  | currentAllowance (currentAllowance : Int) : DepositLine
  /-- Line 65: `🔓 Need to approve ${amountStr} USDFC...`. -/
  | needApprove (amountStr : String) : DepositLine
  /-- Line 67: `Approval tx: ${approveTx.hash}`. -/
  | approvalTx (hash : String) : DepositLine
  /-- Line 68: `Waiting for approval confirmation...`. -/
  | waitingApproval : DepositLine
  /-- Line 70: `✓ Approved`. -/
  | approved : DepositLine
  /-- Line 74: `📤 Depositing...`. -/
  | depositing : DepositLine
  /-- Line 76: `Deposit tx: ${depositTx.hash}`. -/
  | depositTx (hash : String) : DepositLine
  /-- Line 78: `Waiting for confirmation...`. -/
  | waiting : DepositLine
  /-- Line 82: `✓ Deposit confirmed in block ${receipt.blockNumber}`. -/
  | confirmed (blockNumber : Nat) : DepositLine
  /-- Line 83: `Gas used: ${receipt.gasUsed}`. -/
  | gasUsed (gasUsed : Nat) : DepositLine
deriving DecidableEq, Repr

/-- Lines 73-86 of `handleDeposit`: the deposit itself, entered with the
console `log`, the calls `calls` and the chain state `w`. -/
def depositStep {σ : Type} (paymentsService : WalletService σ) (amount : Int)
    (log : List DepositLine) (calls : List WalletCall) (w : σ) :
    CommandRun DepositLine WalletCall σ :=
  match paymentsService.deposit amount w with
  | (Except.error error, w1) =>
    { ending := Ending.threw (Thrown.byCall error)
      log := log ++ [DepositLine.depositing]
      calls := calls ++ [WalletCall.deposit amount], world := w1 }
  | (Except.ok depositTx, w1) =>
    let log1 := log ++
      [DepositLine.depositing, DepositLine.depositTx depositTx.hash, DepositLine.waiting]
    match paymentsService.wait depositTx w1 with
    | (Except.error error, w2) =>
      { ending := Ending.threw (Thrown.byCall error)
        log := log1
        calls := calls ++ [WalletCall.deposit amount, WalletCall.wait depositTx]
        world := w2 }
    | (Except.ok receipt, w2) =>
      if receipt.status = some 1 then
        { ending := Ending.returned
          log := log1 ++
            [DepositLine.confirmed receipt.blockNumber, DepositLine.gasUsed receipt.gasUsed]
          calls := calls ++ [WalletCall.deposit amount, WalletCall.wait depositTx]
          world := w2 }
      else
        { ending := Ending.threw (Thrown.byHandler "Deposit transaction failed")
          log := log1
          calls := calls ++ [WalletCall.deposit amount, WalletCall.wait depositTx]
          world := w2 }

/-- The function `handleDeposit(provider, amountStr, flags)`,
`src/cmd_deposit.js` lines 25-87. -/
def handleDeposit {σ : Type} (parseUnits : String → Except JsError Int)
    (newWallet : FlagValue → Except JsError Wallet) (paymentsService : WalletService σ)
    (amountStr : Option String) (flags : Flags) (world : σ) :
    CommandRun DepositLine WalletCall σ :=
  match amountStr with
  | none =>
    { ending := Ending.threw (Thrown.byHandler "Amount is required for deposit command")
      log := [], calls := [], world := world }
  | some amountStr =>
    if truthyArg (some amountStr) = false then
      { ending := Ending.threw (Thrown.byHandler "Amount is required for deposit command")
        log := [], calls := [], world := world }
    else
      match flags.get "key" with
      | none =>
        { ending := Ending.threw (Thrown.byHandler "--key flag is required for deposit")
          log := [], calls := [], world := world }
      | some privateKey =>
        if truthy (some privateKey) = false then
          { ending := Ending.threw (Thrown.byHandler "--key flag is required for deposit")
            log := [], calls := [], world := world }
        else
          match parseUnits amountStr with
          | Except.error error =>
            { ending := Ending.threw (Thrown.byCall error)
              log := [], calls := [], world := world }
          | Except.ok amount =>
            match newWallet privateKey with
            | Except.error error =>
              { ending := Ending.threw (Thrown.byCall error)
                log := [], calls := [], world := world }
            | Except.ok wallet =>
              let log0 :=
                [DepositLine.title, DepositLine.sender wallet.address,
                 DepositLine.amount amountStr, DepositLine.checkingBalance]
              match paymentsService.walletBalance world with
              | (Except.error error, w1) =>
                { ending := Ending.threw (Thrown.byCall error)
                  log := log0, calls := [WalletCall.walletBalance], world := w1 }
              | (Except.ok walletBalance, w1) =>
                let log1 := log0 ++ [DepositLine.walletBalance walletBalance]
                if walletBalance < amount then
                  { ending := Ending.threw (Thrown.byHandler "Insufficient wallet balance")
                    log := log1, calls := [WalletCall.walletBalance], world := w1 }
                else
                  match paymentsService.allowance w1 with
                  | (Except.error error, w2) =>
                    { ending := Ending.threw (Thrown.byCall error)
                      log := log1 ++ [DepositLine.checkingAllowance]
                      calls := [WalletCall.walletBalance, WalletCall.allowance]
                      world := w2 }
                  | (Except.ok currentAllowance, w2) =>
                    let log2 := log1 ++
                      [DepositLine.checkingAllowance,
                       DepositLine.currentAllowance currentAllowance]
                    if currentAllowance < amount then
                      match paymentsService.approve amount w2 with
                      | (Except.error error, w3) =>
                        { ending := Ending.threw (Thrown.byCall error)
                          log := log2 ++ [DepositLine.needApprove amountStr]
                          calls := [WalletCall.walletBalance, WalletCall.allowance,
                                    WalletCall.approve amount]
                          world := w3 }
                      | (Except.ok approveTx, w3) =>
                        let log3 := log2 ++
                          [DepositLine.needApprove amountStr,
                           DepositLine.approvalTx approveTx.hash, DepositLine.waitingApproval]
                        match paymentsService.wait approveTx w3 with
                        | (Except.error error, w4) =>
                          { ending := Ending.threw (Thrown.byCall error)
                            log := log3
                            calls := [WalletCall.walletBalance, WalletCall.allowance,
                                      WalletCall.approve amount, WalletCall.wait approveTx]
                            world := w4 }
                        | (Except.ok _, w4) =>
                          depositStep paymentsService amount (log3 ++ [DepositLine.approved])
                            [WalletCall.walletBalance, WalletCall.allowance,
                             WalletCall.approve amount, WalletCall.wait approveTx] w4
                    else
                      depositStep paymentsService amount log2
                        [WalletCall.walletBalance, WalletCall.allowance] w2

/-- The calls of `PaymentsService` (and `tx.wait`) that `handleRailSettle`
awaits. The payer is `args[2]` (or `args[1]` for the shortcut), `none` when
the argument is absent. -/
structure SettleService (σ : Type) where
  getSettlementAmounts : Option String → String → σ → Except JsError SettlementAmounts × σ
  settle : Option String → σ → Except JsError TransactionResponse × σ
  wait : TransactionResponse → σ → Except JsError TransactionReceipt × σ

/-- What `handleRailSettle` awaits, with its arguments; `stdinData` is the
promise on the first `data` event of `process.stdin`. -/
inductive SettleCall where
  | getSettlementAmounts (payer : Option String) (payee : String) : SettleCall
  | stdinData : SettleCall
  | settle (payer : Option String) : SettleCall
  | wait (tx : TransactionResponse) : SettleCall
deriving DecidableEq, Repr

/-- Is the call a transaction submission (`paymentsService.settle`)? -/
def SettleCall.isSettle : SettleCall → Bool
  | SettleCall.settle _ => true
  | _ => false

/-- The code points `String.prototype.trim` removes: the ECMAScript white
space and line terminators. -/
def isJsWhitespace (ch : Char) : Bool :=
  ch.toNat ∈ [0x9, 0xA, 0xB, 0xC, 0xD, 0x20, 0xA0, 0x1680, 0x2000, 0x2001, 0x2002, 0x2003,
    0x2004, 0x2005, 0x2006, 0x2007, 0x2008, 0x2009, 0x200A, 0x2028, 0x2029, 0x202F, 0x205F,
    0x3000, 0xFEFF]

/-- JavaScript `text.trim()`. -/
def jsTrim (text : String) : String :=
  String.mk ((text.data.dropWhile isJsWhitespace).reverse.dropWhile isJsWhitespace).reverse

/-- The lines `handleRailSettle` writes (`src/cmd_rails.js`), in source
order. -/
inductive SettleLine where
  /-- Line 138: `💳 Settle Payment Rail`. -/
  | title : SettleLine
  /-- Line 139: `Payer: ${payerAddr}`. -/
  | payer (payerAddr : Option String) : SettleLine
  /-- Line 140: `Payee: ${wallet.address}`. -/
  | payee (address : String) : SettleLine
  /-- Line 143: `Calculating settlement amounts...`. -/
  | calculating : SettleLine
  /-- Line 146: `Payment amount: ${formatUnits(amounts.paymentAmount)} USDFC`. -/
  | paymentAmount (paymentAmount : Int) : SettleLine
  /-- Line 147: `Settlement fee: ${formatUnits(amounts.settlementFee)} USDFC`. -/
  | settlementFee (settlementFee : Int) : SettleLine
  /-- Line 148: `Total to payee: ${formatUnits(paymentAmount - settlementFee)} USDFC`. -/
  | totalToPayee (net : Int) : SettleLine
  /-- Line 151: `⚠ No payment to settle (amount is 0)`. -/
  | noPayment : SettleLine
  /-- Line 156: `⚡ Proceed with settlement? [y/N]: `. -/
  | proceed : SettleLine
  /-- Line 161: `Cancelled`. -/
  | cancelled : SettleLine
  /-- Line 166: `📤 Sending settlement transaction...`. -/
  | sending : SettleLine
  /-- Line 168: `Transaction hash: ${tx.hash}`. -/
  | txHash (hash : String) : SettleLine
  /-- Line 170: `Waiting for confirmation...`. -/
  | waiting : SettleLine
  /-- Line 174: `✓ Settlement confirmed in block ${receipt.blockNumber}`. -/
  | confirmed (blockNumber : Nat) : SettleLine
  /-- Line 175: `Gas used: ${receipt.gasUsed}`. -/
  | gasUsed (gasUsed : Nat) : SettleLine
deriving DecidableEq, Repr

/-- Lines 166-178 of `handleRailSettle`: the settlement itself, entered with
the console `log`, the calls `calls` and the chain state `w`. -/
def settleStep {σ : Type} (paymentsService : SettleService σ) (payerAddr : Option String)
    (log : List SettleLine) (calls : List SettleCall) (w : σ) :
    CommandRun SettleLine SettleCall σ :=
  match paymentsService.settle payerAddr w with
  | (Except.error error, w1) =>
    { ending := Ending.threw (Thrown.byCall error)
      log := log ++ [SettleLine.sending]
      calls := calls ++ [SettleCall.settle payerAddr], world := w1 }
  | (Except.ok tx, w1) =>
    let log1 := log ++ [SettleLine.sending, SettleLine.txHash tx.hash, SettleLine.waiting]
    match paymentsService.wait tx w1 with
    | (Except.error error, w2) =>
      { ending := Ending.threw (Thrown.byCall error)
        log := log1
        calls := calls ++ [SettleCall.settle payerAddr, SettleCall.wait tx]
        world := w2 }
    | (Except.ok receipt, w2) =>
      if receipt.status = some 1 then
        { ending := Ending.returned
          log := log1 ++
            [SettleLine.confirmed receipt.blockNumber, SettleLine.gasUsed receipt.gasUsed]
          calls := calls ++ [SettleCall.settle payerAddr, SettleCall.wait tx]
          world := w2 }
      else
        { ending := Ending.threw (Thrown.byHandler "Settlement transaction failed")
          log := log1
          calls := calls ++ [SettleCall.settle payerAddr, SettleCall.wait tx]
          world := w2 }

/-- The function `handleRailSettle(provider, payerAddr, flags)`,
`src/cmd_rails.js` lines 123-179. `stdinData` is the promise resolved with the
first chunk read from `process.stdin`, `none` when no chunk ever comes. -/
def handleRailSettle {σ : Type} (newWallet : FlagValue → Except JsError Wallet)
    (paymentsService : SettleService σ) (stdinData : σ → Option String × σ)
    (payerAddr : Option String) (flags : Flags) (world : σ) :
    CommandRun SettleLine SettleCall σ :=
  match flags.get "key" with
  | none =>
    { ending := Ending.threw (Thrown.byHandler "--key flag is required for settle")
      log := [], calls := [], world := world }
  | some privateKey =>
    if truthy (some privateKey) = false then
      { ending := Ending.threw (Thrown.byHandler "--key flag is required for settle")
        log := [], calls := [], world := world }
    else
      match newWallet privateKey with
      | Except.error error =>
        { ending := Ending.threw (Thrown.byCall error), log := [], calls := [], world := world }
      | Except.ok wallet =>
        let log0 :=
          [SettleLine.title, SettleLine.payer payerAddr, SettleLine.payee wallet.address,
           SettleLine.calculating]
        match paymentsService.getSettlementAmounts payerAddr wallet.address world with
        | (Except.error error, w1) =>
          { ending := Ending.threw (Thrown.byCall error)
            log := log0
            calls := [SettleCall.getSettlementAmounts payerAddr wallet.address]
            world := w1 }
        | (Except.ok amounts, w1) =>
          let log1 := log0 ++
            [SettleLine.paymentAmount amounts.paymentAmount,
             SettleLine.settlementFee amounts.settlementFee,
             SettleLine.totalToPayee (amounts.paymentAmount - amounts.settlementFee)]
          if amounts.paymentAmount = 0 then
            { ending := Ending.returned
              log := log1 ++ [SettleLine.noPayment]
              calls := [SettleCall.getSettlementAmounts payerAddr wallet.address]
              world := w1 }
          else if truthy (flags.get "yes") = false then
            match stdinData w1 with
            | (none, w2) =>
              { ending := Ending.pending
                log := log1 ++ [SettleLine.proceed]
                calls := [SettleCall.getSettlementAmounts payerAddr wallet.address,
                          SettleCall.stdinData]
                world := w2 }
            | (some data, w2) =>
              let response := jsTrim data
              if response ≠ "y" ∧ response ≠ "Y" then
                { ending := Ending.returned
                  log := log1 ++ [SettleLine.proceed, SettleLine.cancelled]
                  calls := [SettleCall.getSettlementAmounts payerAddr wallet.address,
                            SettleCall.stdinData]
                  world := w2 }
              else
                settleStep paymentsService payerAddr (log1 ++ [SettleLine.proceed])
                  [SettleCall.getSettlementAmounts payerAddr wallet.address,
                   SettleCall.stdinData] w2
          else
            settleStep paymentsService payerAddr log1
              [SettleCall.getSettlementAmounts payerAddr wallet.address] w1

/-- A chain on which the payer `0xPayer1` owes nothing and any other payer
owes 10.0 with fee 0.2, and on which the settlement of `0xPayer3` confirms
with status 0, any other with status 1. The chain state counts the submitted
transactions. -/
def singleService : SettleService Nat where
  getSettlementAmounts := fun payer _ w =>
    if payer = some "0xPayer1" then (Except.ok { paymentAmount := 0, settlementFee := 0 }, w)
    else (Except.ok { paymentAmount := 10 * usdfc, settlementFee := 2 * usdfc / 10 }, w)
  settle := fun payer w =>
    (Except.ok { hash := if payer = some "0xPayer3" then "0xbad" else "0xgood" }, w + 1)
  wait := fun tx w =>
    if tx.hash = "0xbad" then
      (Except.ok { status := some 0, blockNumber := 100 + w, gasUsed := 21000 }, w)
    else (Except.ok { status := some 1, blockNumber := 100 + w, gasUsed := 21000 }, w)

/-- A terminal on which the user types `y` and the return key. -/
def typedYes (w : Nat) : Option String × Nat := (some "y\n", w)

/-- A terminal on which the user types `yes` and the return key. -/
def typedYesWord (w : Nat) : Option String × Nat := (some "yes\n", w)

/-- A reading of amounts that knows the texts `"40"` and `"41"`. -/
def scenarioParseUnits (amountStr : String) : Except JsError Int :=
  if amountStr = "40" then Except.ok (40 * usdfc)
  else if amountStr = "41" then Except.ok (41 * usdfc)
  else Except.error { message := "invalid FixedNumber string value" }

/-- A chain on which the account has 100.0 funded and 40.0 available, the
wallet holds 40.0 and has approved nothing, and every transaction confirms
with status 1. The chain state counts the submitted transactions. -/
def vaultService : WalletService Nat where
  accountInfo := fun w => (Except.ok { funds := 100 * usdfc, availableFunds := 40 * usdfc }, w)
  withdraw := fun _ w => (Except.ok { hash := "0xwithdraw" }, w + 1)
  walletBalance := fun w => (Except.ok (40 * usdfc), w)
  allowance := fun w => (Except.ok 0, w)
  approve := fun _ w => (Except.ok { hash := "0xapprove" }, w + 1)
  deposit := fun _ w => (Except.ok { hash := "0xdeposit" }, w + 1)
  wait := fun _ w => (Except.ok { status := some 1, blockNumber := 100 + w, gasUsed := 21000 }, w)

/-! ## The flag loop of `main` -/

/-- The object `{}` with which the loop starts. -/
def Flags.empty : Flags :=
  { entries := [] }

/-- The assignment `flags[key] = value` of lines 59 and 62, the value being a
string or `true`: the entry is put in front, where `Flags.get` finds it before
any older entry of the same key. The key `__proto__` is the exception: on a
plain object the assignment runs the setter of `Object.prototype`, which
ignores a value that is neither an object nor `null`, and stores nothing. -/
def Flags.set (flags : Flags) (key : String) (value : FlagValue) : Flags :=
  if key = "__proto__" then flags else { entries := (key, value) :: flags.entries }

/-- The names of the data properties of `Object.prototype`, which a plain
object inherits. -/
def objectPrototypeKeys : List String :=
  ["constructor", "__defineGetter__", "__defineSetter__", "hasOwnProperty",
   "__lookupGetter__", "__lookupSetter__", "isPrototypeOf", "propertyIsEnumerable",
   "toString", "valueOf", "toLocaleString"]

/-- What a property read `flags[name]` gives: `undefined`, an own property
stored by the loop, a member inherited from `Object.prototype`, or for
`__proto__` the object `Object.prototype` itself. -/
inductive PropertyRead where
  | undefined : PropertyRead
  | own (value : FlagValue) : PropertyRead
  | inherited (name : String) : PropertyRead
  | objectPrototype : PropertyRead
deriving DecidableEq, Repr

/-- The property read `flags[name]` on the plain object `flags`, through its
prototype. -/
def Flags.read (flags : Flags) (name : String) : PropertyRead :=
  if name = "__proto__" then PropertyRead.objectPrototype
  else
    match flags.get name with
    | some value => PropertyRead.own value
    | none =>
      if name ∈ objectPrototypeKeys then PropertyRead.inherited name
      else PropertyRead.undefined

/-- JavaScript `text.startsWith('--')`. -/
def startsWithDashes (text : String) : Bool :=
  "--".data.isPrefixOf text.data

/-- JavaScript `text.slice(2)`. -/
def slice2 (text : String) : String :=
  String.mk (text.data.drop 2)

/-- The loop of lines 54-65 of `src/cli.js`, run on the arguments from index
`i` on: the first equation is `i = args.length`, the second `i` the last
index, the third has an argument at `i + 1`. The branch `flags[key] =
args[++i]` goes on two arguments further, the others one. -/
def flagLoop : List String → Flags → Flags
  | [], flags => flags
  | [arg], flags =>
    if startsWithDashes arg then flags.set (slice2 arg) FlagValue.flag else flags
  | arg :: next :: rest, flags =>
    if startsWithDashes arg then
      if !startsWithDashes next then
        flagLoop rest (flags.set (slice2 arg) (FlagValue.value next))
      else flagLoop (next :: rest) (flags.set (slice2 arg) FlagValue.flag)
    else flagLoop (next :: rest) flags

/-- The `flags` that `main` builds from `args = process.argv.slice(2)`: the
loop starts at index 1, after the command. -/
def mainFlags (args : List String) : Flags :=
  flagLoop (args.drop 1) Flags.empty

/-- What the flag at index `k` of `l` is given: the argument after it, unless
there is none or it starts with `--`. -/
def valueAfter (l : List String) (k : Nat) : FlagValue :=
  match l[k + 1]? with
  | none => FlagValue.flag
  | some next => if startsWithDashes next then FlagValue.flag else FlagValue.value next

/-- The flags of `settle 0xPayer --key 0xKEY --yes`. -/
def yesFlags : Flags :=
  mainFlags ["settle", "0xPayer3", "--key", "0xKEY", "--yes"]

/-! # Theorems -/

/-! ## The loop only appends -/

section Frame

variable {σ : Type} (ps : PaymentsService σ) (isPreview : Bool) (wallet : Wallet)

theorem processRail_extend (st : LoopState σ) (r : RailSummary) :
    processRail ps isPreview wallet st r =
      st.extend (processRail ps isPreview wallet (LoopState.init [] [] st.world) r) := by
  unfold processRail
  simp only [LoopState.init]
  rcases ps.getRail r.railId st.world with ⟨_ | rail, w1⟩
  · simp [catchRail, LoopState.extend]
  · simp only []
    rcases ps.getSettlementAmounts rail.from_ wallet.address w1 with ⟨_ | amounts, w2⟩
    · simp [catchRail, LoopState.extend]
    · simp only []
      by_cases h0 : amounts.paymentAmount = 0
      · simp [h0, LoopState.extend]
      · by_cases hp : isPreview = true
        · simp [h0, hp, LoopState.extend]
        · simp only [h0, hp, if_false]
          rcases ps.settle rail.from_ w2 with ⟨_ | tx, w3⟩
          · simp [catchRail, LoopState.extend]
          · simp only []
            rcases ps.wait tx w3 with ⟨_ | receipt, w4⟩
            · simp [catchRail, LoopState.extend]
            · by_cases hs : receipt.status = some 1 <;> simp [hs, LoopState.extend]

theorem settleLoop_extend (rails : List RailSummary) (st : LoopState σ) :
    settleLoop ps isPreview wallet rails st =
      st.extend (batch ps isPreview wallet rails st.world) := by
  induction rails generalizing st with
  | nil => simp [settleLoop, batch, LoopState.extend, LoopState.init]
  | cons r rs ih =>
    have h1 := ih (processRail ps isPreview wallet st r)
    have h2 := ih (processRail ps isPreview wallet (LoopState.init [] [] st.world) r)
    simp only [settleLoop, batch, List.foldl_cons] at h1 h2 ⊢
    rw [h1, h2, processRail_extend ps isPreview wallet st r]
    simp [LoopState.extend, LoopState.init]

theorem batch_nil (w : σ) :
    batch ps isPreview wallet [] w = LoopState.init [] [] w := rfl

theorem batch_cons (r : RailSummary) (rs : List RailSummary) (w : σ) :
    batch ps isPreview wallet (r :: rs) w =
      (processRail ps isPreview wallet (LoopState.init [] [] w) r).extend
        (batch ps isPreview wallet rs
          (processRail ps isPreview wallet (LoopState.init [] [] w) r).world) := by
  have h := settleLoop_extend ps isPreview wallet rs
    (processRail ps isPreview wallet (LoopState.init [] [] w) r)
  simpa [batch, settleLoop] using h

theorem batch_append (pre post : List RailSummary) (w : σ) :
    batch ps isPreview wallet (pre ++ post) w =
      (batch ps isPreview wallet pre w).extend
        (batch ps isPreview wallet post (batch ps isPreview wallet pre w).world) := by
  have h := settleLoop_extend ps isPreview wallet post (batch ps isPreview wallet pre w)
  simpa [batch, settleLoop, List.foldl_append] using h

/-- The run over `pre ++ r :: post` is the run over `pre`, then the body for
`r`, then the run over `post`, each from empty arrays on the chain state the
previous part left. -/
theorem batch_split (pre post : List RailSummary) (r : RailSummary) (w : σ) :
    batch ps isPreview wallet (pre ++ r :: post) w =
      ((batch ps isPreview wallet pre w).extend
        (processRail ps isPreview wallet
          (LoopState.init [] [] (batch ps isPreview wallet pre w).world) r)).extend
        (batch ps isPreview wallet post
          (processRail ps isPreview wallet
            (LoopState.init [] [] (batch ps isPreview wallet pre w).world) r).world) := by
  rw [batch_append, batch_cons]
  simp [LoopState.extend]

end Frame

/-! ## From the handler to its loop -/

section Handler

variable {σ : Type} (newWallet : FlagValue → Except JsError Wallet)
  (ps : PaymentsService σ) (flags : Flags) (world : σ)

/-- Once the rails are enumerated the handler is its loop followed by the
summary: it does not throw, and its arrays are those of the loop. -/
theorem handleRailSettleAll_eq (wallet : Wallet) (rails : List RailSummary) (w0 : σ)
    (h : Enumerated newWallet ps flags world wallet rails w0) :
    handleRailSettleAll newWallet ps flags world =
      { thrown := none
        state :=
          { settled := (batch ps (truthy (flags.get "preview")) wallet rails w0).settled
            skipped := (batch ps (truthy (flags.get "preview")) wallet rails w0).skipped
            failed := (batch ps (truthy (flags.get "preview")) wallet rails w0).failed
            log := [Line.header (truthy (flags.get "preview")), Line.address wallet.address,
                Line.found rails.length] ++
              (batch ps (truthy (flags.get "preview")) wallet rails w0).log ++
              summary (truthy (flags.get "preview"))
                (batch ps (truthy (flags.get "preview")) wallet rails w0).settled
                (batch ps (truthy (flags.get "preview")) wallet rails w0).skipped
                (batch ps (truthy (flags.get "preview")) wallet rails w0).failed
            calls := Call.getRailsAsPayee ::
              (batch ps (truthy (flags.get "preview")) wallet rails w0).calls
            world := (batch ps (truthy (flags.get "preview")) wallet rails w0).world } } := by
  obtain ⟨key, hk, ht, hw, he⟩ := h
  unfold handleRailSettleAll
  simp [hk, ht, hw, he, settleLoop_extend, LoopState.extend, LoopState.init]

end Handler

/-! ## Every visit records one entry -/

section Ids

variable {σ : Type} (ps : PaymentsService σ) (isPreview : Bool) (wallet : Wallet)

/-- The body of the loop appends exactly one entry, carrying the id of the
rail it was run for, to exactly one of the three arrays. -/
theorem processRail_one_entry (w : σ) (r : RailSummary) :
    ((processRail ps isPreview wallet (LoopState.init [] [] w) r).settledIds = [r.railId] ∧
      (processRail ps isPreview wallet (LoopState.init [] [] w) r).skippedIds = [] ∧
      (processRail ps isPreview wallet (LoopState.init [] [] w) r).failedIds = []) ∨
    ((processRail ps isPreview wallet (LoopState.init [] [] w) r).settledIds = [] ∧
      (processRail ps isPreview wallet (LoopState.init [] [] w) r).skippedIds = [r.railId] ∧
      (processRail ps isPreview wallet (LoopState.init [] [] w) r).failedIds = []) ∨
    ((processRail ps isPreview wallet (LoopState.init [] [] w) r).settledIds = [] ∧
      (processRail ps isPreview wallet (LoopState.init [] [] w) r).skippedIds = [] ∧
      (processRail ps isPreview wallet (LoopState.init [] [] w) r).failedIds = [r.railId]) := by
  unfold processRail
  simp only [LoopState.init]
  rcases ps.getRail r.railId w with ⟨_ | rail, w1⟩
  · simp [catchRail, LoopState.settledIds, LoopState.skippedIds, LoopState.failedIds]
  · simp only []
    rcases ps.getSettlementAmounts rail.from_ wallet.address w1 with ⟨_ | amounts, w2⟩
    · simp [catchRail, LoopState.settledIds, LoopState.skippedIds, LoopState.failedIds]
    · simp only []
      by_cases h0 : amounts.paymentAmount = 0
      · simp [h0, LoopState.settledIds, LoopState.skippedIds, LoopState.failedIds]
      · by_cases hp : isPreview = true
        · simp [h0, hp, LoopState.settledIds, LoopState.skippedIds, LoopState.failedIds]
        · simp only [h0, hp, if_false]
          rcases ps.settle rail.from_ w2 with ⟨_ | tx, w3⟩
          · simp [catchRail, LoopState.settledIds, LoopState.skippedIds, LoopState.failedIds]
          · simp only []
            rcases ps.wait tx w3 with ⟨_ | receipt, w4⟩
            · simp [catchRail, LoopState.settledIds, LoopState.skippedIds,
                LoopState.failedIds]
            · by_cases hs : receipt.status = some 1 <;>
                simp [hs, LoopState.settledIds, LoopState.skippedIds, LoopState.failedIds]

/-- The ids recorded by a run are the enumerated ids, each as many times as it
was enumerated. -/
theorem batch_ids_perm (rails : List RailSummary) (w : σ) :
    List.Perm
      ((batch ps isPreview wallet rails w).settledIds ++
        (batch ps isPreview wallet rails w).skippedIds ++
        (batch ps isPreview wallet rails w).failedIds)
      (rails.map RailSummary.railId) := by
  induction rails generalizing w with
  | nil => simp [batch_nil, LoopState.init, LoopState.settledIds, LoopState.skippedIds,
      LoopState.failedIds]
  | cons r rs ih =>
    have hrest := ih (processRail ps isPreview wallet (LoopState.init [] [] w) r).world
    rw [batch_cons]
    have hS : ∀ a b : LoopState σ, (a.extend b).settledIds = a.settledIds ++ b.settledIds := by
      intro a b; simp [LoopState.extend, LoopState.settledIds]
    have hK : ∀ a b : LoopState σ, (a.extend b).skippedIds = a.skippedIds ++ b.skippedIds := by
      intro a b; simp [LoopState.extend, LoopState.skippedIds]
    have hF : ∀ a b : LoopState σ, (a.extend b).failedIds = a.failedIds ++ b.failedIds := by
      intro a b; simp [LoopState.extend, LoopState.failedIds]
    rw [hS, hK, hF, List.map_cons]
    rcases processRail_one_entry ps isPreview wallet w r with ⟨h1, h2, h3⟩ | ⟨h1, h2, h3⟩ |
      ⟨h1, h2, h3⟩
    · rw [h1, h2, h3]
      simpa using hrest
    · rw [h1, h2, h3]
      simp only [List.nil_append, List.append_nil, List.singleton_append]
      refine List.Perm.trans ?_ (List.Perm.cons r.railId hrest)
      simp only [List.append_assoc]
      exact List.perm_middle
    · rw [h1, h2, h3]
      simp only [List.nil_append, List.append_nil, List.singleton_append]
      refine List.Perm.trans ?_ (List.Perm.cons r.railId hrest)
      exact List.perm_middle

end Ids

/-! ## The body of the loop, case by case -/

section Steps

variable {σ : Type} (ps : PaymentsService σ) (isPreview : Bool) (wallet : Wallet)

/-- Lines 221-225: a rail that owes nothing. -/
theorem processRail_zero (w : σ) (r : RailSummary) (rail : Rail) (w1 : σ)
    (amounts : SettlementAmounts) (w2 : σ)
    (h1 : ps.getRail r.railId w = (Except.ok rail, w1))
    (h2 : ps.getSettlementAmounts rail.from_ wallet.address w1 = (Except.ok amounts, w2))
    (h0 : amounts.paymentAmount = 0) :
    processRail ps isPreview wallet (LoopState.init [] [] w) r =
      { settled := []
        skipped := [{ railId := r.railId, payer := rail.from_ }]
        failed := []
        log := [Line.noPaymentDue r.railId (substring10 rail.from_)]
        calls := [Call.getRail r.railId, Call.getSettlementAmounts rail.from_ wallet.address]
        world := w2 } := by
  unfold processRail
  simp [LoopState.init, h1, h2, h0]

/-- Lines 228-236: a rail that owes something, in preview mode. -/
theorem processRail_preview (w : σ) (r : RailSummary) (rail : Rail) (w1 : σ)
    (amounts : SettlementAmounts) (w2 : σ)
    (h1 : ps.getRail r.railId w = (Except.ok rail, w1))
    (h2 : ps.getSettlementAmounts rail.from_ wallet.address w1 = (Except.ok amounts, w2))
    (h0 : amounts.paymentAmount ≠ 0) :
    processRail ps true wallet (LoopState.init [] [] w) r =
      { settled := [{ railId := r.railId, payer := rail.from_, amount := amounts.paymentAmount,
                      fee := some amounts.settlementFee, txHash := none }]
        skipped := []
        failed := []
        log := [Line.previewRail r.railId (substring10 rail.from_),
                Line.previewPayment amounts.paymentAmount,
                Line.previewFee amounts.settlementFee,
                Line.previewNet (amounts.paymentAmount - amounts.settlementFee)]
        calls := [Call.getRail r.railId, Call.getSettlementAmounts rail.from_ wallet.address]
        world := w2 } := by
  unfold processRail
  simp [LoopState.init, h1, h2, h0]

/-- Lines 239-249: a rail that owes something, in execute mode, whose
settlement is submitted and whose confirmation arrives. -/
theorem processRail_execute (w : σ) (r : RailSummary) (rail : Rail) (w1 : σ)
    (amounts : SettlementAmounts) (w2 : σ) (tx : TransactionResponse) (w3 : σ)
    (receipt : TransactionReceipt) (w4 : σ)
    (h1 : ps.getRail r.railId w = (Except.ok rail, w1))
    (h2 : ps.getSettlementAmounts rail.from_ wallet.address w1 = (Except.ok amounts, w2))
    (h0 : amounts.paymentAmount ≠ 0)
    (h3 : ps.settle rail.from_ w2 = (Except.ok tx, w3))
    (h4 : ps.wait tx w3 = (Except.ok receipt, w4)) :
    processRail ps false wallet (LoopState.init [] [] w) r =
      { settled :=
          if receipt.status = some 1 then
            [{ railId := r.railId, payer := rail.from_, amount := amounts.paymentAmount,
               fee := none, txHash := some tx.hash }]
          else []
        skipped := []
        failed :=
          if receipt.status = some 1 then []
          else [{ railId := r.railId, payer := some rail.from_, error := "Transaction failed" }]
        log :=
          [Line.settling r.railId (substring10 rail.from_) amounts.paymentAmount,
           if receipt.status = some 1 then Line.confirmed receipt.blockNumber
           else Line.transactionFailed]
        calls := [Call.getRail r.railId, Call.getSettlementAmounts rail.from_ wallet.address,
                  Call.settle rail.from_, Call.wait tx]
        world := w4 } := by
  unfold processRail
  by_cases hs : receipt.status = some 1 <;> simp [LoopState.init, h1, h2, h0, h3, h4, hs]

/-- Lines 250-253: a rail one of whose steps throws. -/
theorem processRail_throws (w : σ) (r : RailSummary) (error : JsError) (w' : σ)
    (h : Throws ps isPreview wallet r w error w') :
    (processRail ps isPreview wallet (LoopState.init [] [] w) r).settled = [] ∧
    (processRail ps isPreview wallet (LoopState.init [] [] w) r).skipped = [] ∧
    (processRail ps isPreview wallet (LoopState.init [] [] w) r).failed =
      [{ railId := r.railId, payer := none, error := error.message }] ∧
    (processRail ps isPreview wallet (LoopState.init [] [] w) r).world = w' ∧
    Line.railError r.railId
        (if includes error.message "RailInactiveOrSettled" then "Already settled" else "Error") ∈
      (processRail ps isPreview wallet (LoopState.init [] [] w) r).log := by
  unfold processRail
  cases h with
  | getRail h1 => simp [LoopState.init, catchRail, h1]
  | getSettlementAmounts rail w1 h1 h2 => simp [LoopState.init, catchRail, h1, h2]
  | settle rail w1 amounts w2 h1 h2 hamount hmode h3 =>
    simp [LoopState.init, catchRail, h1, h2, hamount, hmode, h3]
  | wait rail w1 amounts w2 tx w3 h1 h2 hamount hmode h3 h4 =>
    simp [LoopState.init, catchRail, h1, h2, hamount, hmode, h3, h4]

/-- In preview mode the body of the loop never calls `settle`. -/
theorem processRail_preview_calls (w : σ) (r : RailSummary) :
    (processRail ps true wallet (LoopState.init [] [] w) r).calls.countP Call.isSettle = 0 := by
  unfold processRail
  simp only [LoopState.init]
  rcases ps.getRail r.railId w with ⟨_ | rail, w1⟩
  · simp [catchRail, Call.isSettle]
  · simp only []
    rcases ps.getSettlementAmounts rail.from_ wallet.address w1 with ⟨_ | amounts, w2⟩
    · simp [catchRail, Call.isSettle]
    · by_cases h0 : amounts.paymentAmount = 0 <;> simp [h0, Call.isSettle]

/-- In preview mode no run of the loop calls `settle`. -/
theorem batch_preview_calls (rails : List RailSummary) (w : σ) :
    (batch ps true wallet rails w).calls.countP Call.isSettle = 0 := by
  induction rails generalizing w with
  | nil => simp [batch_nil, LoopState.init]
  | cons r rs ih =>
    rw [batch_cons]
    simp only [LoopState.extend, List.countP_append]
    rw [processRail_preview_calls, ih]

end Steps

/-- Under `Enumerated`, the arrays and calls of the handler over
`pre ++ r :: post` are those of `pre`, of the body for `r`, and of `post`. -/
theorem handleRailSettleAll_split {σ : Type} (newWallet : FlagValue → Except JsError Wallet)
    (ps : PaymentsService σ) (flags : Flags) (world : σ) (wallet : Wallet)
    (pre post : List RailSummary) (r : RailSummary) (w0 : σ) (step : LoopState σ)
    (h : Enumerated newWallet ps flags world wallet (pre ++ r :: post) w0)
    (hstep : processRail ps (truthy (flags.get "preview")) wallet
      (LoopState.init [] [] (batch ps (truthy (flags.get "preview")) wallet pre w0).world) r =
        step) :
    (handleRailSettleAll newWallet ps flags world).thrown = none ∧
    (handleRailSettleAll newWallet ps flags world).state.settled =
      (batch ps (truthy (flags.get "preview")) wallet pre w0).settled ++ step.settled ++
        (batch ps (truthy (flags.get "preview")) wallet post step.world).settled ∧
    (handleRailSettleAll newWallet ps flags world).state.skipped =
      (batch ps (truthy (flags.get "preview")) wallet pre w0).skipped ++ step.skipped ++
        (batch ps (truthy (flags.get "preview")) wallet post step.world).skipped ∧
    (handleRailSettleAll newWallet ps flags world).state.failed =
      (batch ps (truthy (flags.get "preview")) wallet pre w0).failed ++ step.failed ++
        (batch ps (truthy (flags.get "preview")) wallet post step.world).failed ∧
    (handleRailSettleAll newWallet ps flags world).state.calls =
      Call.getRailsAsPayee ::
        ((batch ps (truthy (flags.get "preview")) wallet pre w0).calls ++ step.calls ++
          (batch ps (truthy (flags.get "preview")) wallet post step.world).calls) := by
  rw [handleRailSettleAll_eq newWallet ps flags world wallet (pre ++ r :: post) w0 h,
    batch_split, hstep]
  simp [LoopState.extend]

/-! ## C1 -/

theorem scenarioC_enumerated :
    Enumerated scenarioWallet scenarioService executeFlags 0 { address := "0xPayee" }
      [{ railId := 1 }, { railId := 2 }, { railId := 3 }] 0 :=
  ⟨FlagValue.value "0xKEY", by decide, by decide, rfl, rfl⟩

theorem scenarioD_enumerated :
    Enumerated scenarioWallet scenarioService previewFlags 0 { address := "0xPayee" }
      [{ railId := 1 }, { railId := 2 }, { railId := 3 }] 0 :=
  ⟨FlagValue.value "0xKEY", by decide, by decide, rfl, rfl⟩

theorem exactlyOne_of_count {S K F : List Nat} {id : Nat}
    (h : (S ++ K ++ F).count id = 1) : ExactlyOne (id ∈ S) (id ∈ K) (id ∈ F) := by
  simp only [List.count_append] at h
  unfold ExactlyOne
  simp only [← List.count_pos_iff, Nat.pos_iff_ne_zero]
  omega

/-- C1. For every chain, every enumeration of payee rails and both modes: once
the rails are enumerated, `handleRailSettleAll` does not throw, and when its
loop is over `settled.length + skipped.length + failed.length` is the number of
enumerated rails; the rail ids recorded in the three arrays are the enumerated
ids, each as often as it was enumerated; and every rail id that was enumerated
(once, as the ids of a rail set are) is in exactly one of the three arrays. -/
theorem settleAll_partition {σ : Type} (newWallet : FlagValue → Except JsError Wallet)
    (ps : PaymentsService σ) (flags : Flags) (world : σ) (wallet : Wallet)
    (rails : List RailSummary) (w0 : σ)
    (h : Enumerated newWallet ps flags world wallet rails w0) :
    (handleRailSettleAll newWallet ps flags world).thrown = none ∧
    (handleRailSettleAll newWallet ps flags world).state.settled.length +
        (handleRailSettleAll newWallet ps flags world).state.skipped.length +
        (handleRailSettleAll newWallet ps flags world).state.failed.length = rails.length ∧
    List.Perm
      ((handleRailSettleAll newWallet ps flags world).state.settledIds ++
        (handleRailSettleAll newWallet ps flags world).state.skippedIds ++
        (handleRailSettleAll newWallet ps flags world).state.failedIds)
      (rails.map RailSummary.railId) ∧
    ∀ id, (rails.map RailSummary.railId).count id = 1 →
      ExactlyOne (id ∈ (handleRailSettleAll newWallet ps flags world).state.settledIds)
        (id ∈ (handleRailSettleAll newWallet ps flags world).state.skippedIds)
        (id ∈ (handleRailSettleAll newWallet ps flags world).state.failedIds) := by
  have hperm := batch_ids_perm ps (truthy (flags.get "preview")) wallet rails w0
  rw [handleRailSettleAll_eq newWallet ps flags world wallet rails w0 h]
  refine ⟨rfl, ?_, hperm, ?_⟩
  · have hlen := hperm.length_eq
    simp only [LoopState.settledIds, LoopState.skippedIds, LoopState.failedIds,
      List.length_append, List.length_map] at hlen
    exact hlen
  · intro id hid
    exact exactlyOne_of_count ((hperm.count_eq id).trans hid)

theorem settleAll_partition_witness :
    Enumerated scenarioWallet scenarioService executeFlags 0 { address := "0xPayee" }
      [{ railId := 1 }, { railId := 2 }, { railId := 3 }] 0 ∧
    (scenarioC.thrown = none ∧
      scenarioC.state.settled.length + scenarioC.state.skipped.length +
        scenarioC.state.failed.length = 3 ∧
      List.Perm
        (scenarioC.state.settledIds ++ scenarioC.state.skippedIds ++ scenarioC.state.failedIds)
        [1, 2, 3] ∧
      ∀ id, ([1, 2, 3] : List Nat).count id = 1 →
        ExactlyOne (id ∈ scenarioC.state.settledIds) (id ∈ scenarioC.state.skippedIds)
          (id ∈ scenarioC.state.failedIds)) :=
  ⟨scenarioC_enumerated,
    settleAll_partition scenarioWallet scenarioService executeFlags 0 { address := "0xPayee" }
      [{ railId := 1 }, { railId := 2 }, { railId := 3 }] 0 scenarioC_enumerated⟩

/-! ## C2 -/

/-- C2. In both modes, a rail whose settlement preview returns
`paymentAmount = 0` adds `{ railId, payer }` to `skipped` and nothing to
`settled` or `failed`, and the only calls made for it are `getRail` and
`getSettlementAmounts`: no settlement is submitted for it. The rails before
and after it contribute what they contribute by themselves. -/
theorem zero_amount_skipped {σ : Type} (newWallet : FlagValue → Except JsError Wallet)
    (ps : PaymentsService σ) (flags : Flags) (world : σ) (wallet : Wallet)
    (pre post : List RailSummary) (r : RailSummary) (w0 : σ)
    (rail : Rail) (w1 : σ) (amounts : SettlementAmounts) (w2 : σ)
    (h : Enumerated newWallet ps flags world wallet (pre ++ r :: post) w0)
    (h1 : ps.getRail r.railId
      (batch ps (truthy (flags.get "preview")) wallet pre w0).world = (Except.ok rail, w1))
    (h2 : ps.getSettlementAmounts rail.from_ wallet.address w1 = (Except.ok amounts, w2))
    (h0 : amounts.paymentAmount = 0) :
    (handleRailSettleAll newWallet ps flags world).state.skipped =
      (batch ps (truthy (flags.get "preview")) wallet pre w0).skipped ++
        { railId := r.railId, payer := rail.from_ } ::
        (batch ps (truthy (flags.get "preview")) wallet post w2).skipped ∧
    (handleRailSettleAll newWallet ps flags world).state.settled =
      (batch ps (truthy (flags.get "preview")) wallet pre w0).settled ++
        (batch ps (truthy (flags.get "preview")) wallet post w2).settled ∧
    (handleRailSettleAll newWallet ps flags world).state.failed =
      (batch ps (truthy (flags.get "preview")) wallet pre w0).failed ++
        (batch ps (truthy (flags.get "preview")) wallet post w2).failed ∧
    (handleRailSettleAll newWallet ps flags world).state.calls =
      Call.getRailsAsPayee ::
        ((batch ps (truthy (flags.get "preview")) wallet pre w0).calls ++
          [Call.getRail r.railId, Call.getSettlementAmounts rail.from_ wallet.address] ++
          (batch ps (truthy (flags.get "preview")) wallet post w2).calls) := by
  have hstep := processRail_zero ps (truthy (flags.get "preview")) wallet _ r rail w1 amounts w2
    h1 h2 h0
  obtain ⟨-, hS, hK, hF, hC⟩ :=
    handleRailSettleAll_split newWallet ps flags world wallet pre post r w0 _ h hstep
  refine ⟨?_, ?_, ?_, ?_⟩
  · simpa using hK
  · simpa using hS
  · simpa using hF
  · simpa using hC

theorem zero_amount_skipped_witness :
    Enumerated scenarioWallet scenarioService executeFlags 0 { address := "0xPayee" }
      ([] ++ { railId := 1 } :: [{ railId := 2 }, { railId := 3 }]) 0 ∧
    scenarioService.getRail 1
      (batch scenarioService (truthy (executeFlags.get "preview")) { address := "0xPayee" }
        [] 0).world =
      (Except.ok { from_ := "0xPayer1", to_ := "0xPayee", endEpoch := 0 }, 0) ∧
    scenarioService.getSettlementAmounts "0xPayer1" "0xPayee" 0 =
      (Except.ok { paymentAmount := 0, settlementFee := 0 }, 0) ∧
    (0 : Int) = 0 ∧
    scenarioC.state.skipped =
      (batch scenarioService (truthy (executeFlags.get "preview")) { address := "0xPayee" }
        [] 0).skipped ++
        { railId := 1, payer := "0xPayer1" } ::
        (batch scenarioService (truthy (executeFlags.get "preview")) { address := "0xPayee" }
          [{ railId := 2 }, { railId := 3 }] 0).skipped :=
  ⟨scenarioC_enumerated, rfl, rfl, rfl,
    (zero_amount_skipped scenarioWallet scenarioService executeFlags 0 { address := "0xPayee" }
      [] [{ railId := 2 }, { railId := 3 }] { railId := 1 } 0
      { from_ := "0xPayer1", to_ := "0xPayee", endEpoch := 0 } 0
      { paymentAmount := 0, settlementFee := 0 } 0 scenarioC_enumerated rfl rfl rfl).1⟩

/-! ## C3 -/

/-- C3. When `flags.preview` is truthy, for every chain and every enumeration
`paymentsService.settle` is called zero times, and every rail whose preview
returns a non-zero `paymentAmount` adds
`{ railId, payer, amount: paymentAmount, fee: settlementFee }` to `settled`
(and nothing to `skipped` or `failed`). -/
theorem preview_never_submits {σ : Type} (newWallet : FlagValue → Except JsError Wallet)
    (ps : PaymentsService σ) (flags : Flags) (world : σ) (wallet : Wallet)
    (rails : List RailSummary) (w0 : σ)
    (h : Enumerated newWallet ps flags world wallet rails w0)
    (hmode : truthy (flags.get "preview") = true) :
    (handleRailSettleAll newWallet ps flags world).state.calls.countP Call.isSettle = 0 ∧
    ∀ (pre post : List RailSummary) (r : RailSummary) (rail : Rail) (w1 : σ)
      (amounts : SettlementAmounts) (w2 : σ),
      rails = pre ++ r :: post →
      ps.getRail r.railId (batch ps true wallet pre w0).world = (Except.ok rail, w1) →
      ps.getSettlementAmounts rail.from_ wallet.address w1 = (Except.ok amounts, w2) →
      amounts.paymentAmount ≠ 0 →
      (handleRailSettleAll newWallet ps flags world).state.settled =
        (batch ps true wallet pre w0).settled ++
          { railId := r.railId, payer := rail.from_, amount := amounts.paymentAmount,
            fee := some amounts.settlementFee, txHash := none } ::
          (batch ps true wallet post w2).settled ∧
      (handleRailSettleAll newWallet ps flags world).state.skipped =
        (batch ps true wallet pre w0).skipped ++ (batch ps true wallet post w2).skipped ∧
      (handleRailSettleAll newWallet ps flags world).state.failed =
        (batch ps true wallet pre w0).failed ++ (batch ps true wallet post w2).failed := by
  constructor
  · rw [handleRailSettleAll_eq newWallet ps flags world wallet rails w0 h, hmode]
    simp [batch_preview_calls, Call.isSettle]
  · intro pre post r rail w1 amounts w2 hrails h1 h2 h0
    subst hrails
    have hstep := processRail_preview ps wallet _ r rail w1 amounts w2 h1 h2 h0
    rw [← hmode] at hstep
    obtain ⟨-, hS, hK, hF, -⟩ :=
      handleRailSettleAll_split newWallet ps flags world wallet pre post r w0 _ h hstep
    rw [hmode] at hS hK hF
    refine ⟨?_, ?_, ?_⟩
    · simpa using hS
    · simpa using hK
    · simpa using hF

theorem preview_never_submits_witness :
    Enumerated scenarioWallet scenarioService previewFlags 0 { address := "0xPayee" }
      [{ railId := 1 }, { railId := 2 }, { railId := 3 }] 0 ∧
    truthy (previewFlags.get "preview") = true ∧
    scenarioD.state.calls.countP Call.isSettle = 0 :=
  ⟨scenarioD_enumerated, by decide,
    (preview_never_submits scenarioWallet scenarioService previewFlags 0
      { address := "0xPayee" } [{ railId := 1 }, { railId := 2 }, { railId := 3 }] 0
      scenarioD_enumerated (by decide)).1⟩

/-! ## C4 -/

/-- C4. Once the rails are enumerated, if a step of the `try` block of a rail
throws `error` (fetching the rail, previewing the amounts, submitting the
settlement or awaiting its confirmation), the handler does not throw; the rail
adds `{ railId, error: error.message }` to `failed` and nothing to `settled` or
`skipped`; the loop goes on with the rails after it; and what the rails before
and after it add is what the loop adds for them by themselves, whatever the
arrays already hold: the record of the failing rail changes nothing for them. -/
theorem rail_error_isolated {σ : Type} (newWallet : FlagValue → Except JsError Wallet)
    (ps : PaymentsService σ) (flags : Flags) (world : σ) (wallet : Wallet)
    (pre post : List RailSummary) (r : RailSummary) (w0 : σ) (error : JsError) (w' : σ)
    (h : Enumerated newWallet ps flags world wallet (pre ++ r :: post) w0)
    (hthrow : Throws ps (truthy (flags.get "preview")) wallet r
      (batch ps (truthy (flags.get "preview")) wallet pre w0).world error w') :
    (handleRailSettleAll newWallet ps flags world).thrown = none ∧
    (handleRailSettleAll newWallet ps flags world).state.failed =
      (batch ps (truthy (flags.get "preview")) wallet pre w0).failed ++
        { railId := r.railId, payer := none, error := error.message } ::
        (batch ps (truthy (flags.get "preview")) wallet post w').failed ∧
    (handleRailSettleAll newWallet ps flags world).state.settled =
      (batch ps (truthy (flags.get "preview")) wallet pre w0).settled ++
        (batch ps (truthy (flags.get "preview")) wallet post w').settled ∧
    (handleRailSettleAll newWallet ps flags world).state.skipped =
      (batch ps (truthy (flags.get "preview")) wallet pre w0).skipped ++
        (batch ps (truthy (flags.get "preview")) wallet post w').skipped ∧
    ∀ st : LoopState σ, st.world = w' →
      (settleLoop ps (truthy (flags.get "preview")) wallet post st).settled =
        st.settled ++ (batch ps (truthy (flags.get "preview")) wallet post w').settled ∧
      (settleLoop ps (truthy (flags.get "preview")) wallet post st).skipped =
        st.skipped ++ (batch ps (truthy (flags.get "preview")) wallet post w').skipped ∧
      (settleLoop ps (truthy (flags.get "preview")) wallet post st).failed =
        st.failed ++ (batch ps (truthy (flags.get "preview")) wallet post w').failed := by
  obtain ⟨hS, hK, hF, hW, -⟩ :=
    processRail_throws ps (truthy (flags.get "preview")) wallet _ r error w' hthrow
  obtain ⟨hT, hS', hK', hF', -⟩ :=
    handleRailSettleAll_split newWallet ps flags world wallet pre post r w0 _ h rfl
  rw [hS, hW] at hS'
  rw [hK, hW] at hK'
  rw [hF, hW] at hF'
  refine ⟨hT, ?_, ?_, ?_, ?_⟩
  · simpa using hF'
  · simpa using hS'
  · simpa using hK'
  · intro st hst
    subst hst
    rw [settleLoop_extend]
    simp [LoopState.extend]

theorem raceRun_enumerated :
    Enumerated scenarioWallet raceService executeFlags 0 { address := "0xPayee" }
      [{ railId := 1 }, { railId := 2 }, { railId := 3 }] 0 :=
  ⟨FlagValue.value "0xKEY", by decide, by decide, rfl, rfl⟩

theorem raceRun_throws_rail2 :
    Throws raceService (truthy (executeFlags.get "preview")) { address := "0xPayee" }
      { railId := 2 }
      (batch raceService (truthy (executeFlags.get "preview")) { address := "0xPayee" }
        [{ railId := 1 }] 0).world
      { message := "execution reverted: RailInactiveOrSettled(2)" } 0 :=
  Throws.getSettlementAmounts { from_ := "0xPayer2", to_ := "0xPayee", endEpoch := 0 } 0
    rfl rfl

theorem rail_error_isolated_witness :
    Enumerated scenarioWallet raceService executeFlags 0 { address := "0xPayee" }
      ([{ railId := 1 }] ++ { railId := 2 } :: [{ railId := 3 }]) 0 ∧
    Throws raceService (truthy (executeFlags.get "preview")) { address := "0xPayee" }
      { railId := 2 }
      (batch raceService (truthy (executeFlags.get "preview")) { address := "0xPayee" }
        [{ railId := 1 }] 0).world
      { message := "execution reverted: RailInactiveOrSettled(2)" } 0 ∧
    raceRun.thrown = none ∧
    raceRun.state.failed =
      (batch raceService (truthy (executeFlags.get "preview")) { address := "0xPayee" }
        [{ railId := 1 }] 0).failed ++
        { railId := 2, payer := none,
          error := "execution reverted: RailInactiveOrSettled(2)" } ::
        (batch raceService (truthy (executeFlags.get "preview")) { address := "0xPayee" }
          [{ railId := 3 }] 0).failed :=
  ⟨raceRun_enumerated, raceRun_throws_rail2,
    (rail_error_isolated scenarioWallet raceService executeFlags 0 { address := "0xPayee" }
      [{ railId := 1 }] [{ railId := 3 }] { railId := 2 } 0
      { message := "execution reverted: RailInactiveOrSettled(2)" } 0
      raceRun_enumerated raceRun_throws_rail2).1,
    (rail_error_isolated scenarioWallet raceService executeFlags 0 { address := "0xPayee" }
      [{ railId := 1 }] [{ railId := 3 }] { railId := 2 } 0
      { message := "execution reverted: RailInactiveOrSettled(2)" } 0
      raceRun_enumerated raceRun_throws_rail2).2.1⟩

/-! ## C5 -/

/-- C5. In execute mode, for a rail whose preview returns a non-zero
`paymentAmount`, whose settlement is submitted and whose confirmation arrives:
when `receipt.status` is 1 the rail adds
`{ railId, payer, amount: paymentAmount, txHash: tx.hash }` to `settled` and
nothing to `failed`; otherwise it adds
`{ railId, payer, error: 'Transaction failed' }` to `failed` and nothing to
`settled`. In neither case does it add to `skipped`. -/
theorem execute_confirmation_recorded {σ : Type}
    (newWallet : FlagValue → Except JsError Wallet)
    (ps : PaymentsService σ) (flags : Flags) (world : σ) (wallet : Wallet)
    (pre post : List RailSummary) (r : RailSummary) (w0 : σ)
    (rail : Rail) (w1 : σ) (amounts : SettlementAmounts) (w2 : σ)
    (tx : TransactionResponse) (w3 : σ) (receipt : TransactionReceipt) (w4 : σ)
    (h : Enumerated newWallet ps flags world wallet (pre ++ r :: post) w0)
    (hmode : truthy (flags.get "preview") = false)
    (h1 : ps.getRail r.railId (batch ps false wallet pre w0).world = (Except.ok rail, w1))
    (h2 : ps.getSettlementAmounts rail.from_ wallet.address w1 = (Except.ok amounts, w2))
    (h0 : amounts.paymentAmount ≠ 0)
    (h3 : ps.settle rail.from_ w2 = (Except.ok tx, w3))
    (h4 : ps.wait tx w3 = (Except.ok receipt, w4)) :
    (receipt.status = some 1 →
      (handleRailSettleAll newWallet ps flags world).state.settled =
        (batch ps false wallet pre w0).settled ++
          { railId := r.railId, payer := rail.from_, amount := amounts.paymentAmount,
            fee := none, txHash := some tx.hash } ::
          (batch ps false wallet post w4).settled ∧
      (handleRailSettleAll newWallet ps flags world).state.failed =
        (batch ps false wallet pre w0).failed ++ (batch ps false wallet post w4).failed) ∧
    (receipt.status ≠ some 1 →
      (handleRailSettleAll newWallet ps flags world).state.failed =
        (batch ps false wallet pre w0).failed ++
          { railId := r.railId, payer := some rail.from_, error := "Transaction failed" } ::
          (batch ps false wallet post w4).failed ∧
      (handleRailSettleAll newWallet ps flags world).state.settled =
        (batch ps false wallet pre w0).settled ++ (batch ps false wallet post w4).settled) ∧
    (handleRailSettleAll newWallet ps flags world).state.skipped =
      (batch ps false wallet pre w0).skipped ++ (batch ps false wallet post w4).skipped := by
  have hstep := processRail_execute ps wallet _ r rail w1 amounts w2 tx w3 receipt w4
    h1 h2 h0 h3 h4
  rw [← hmode] at hstep
  obtain ⟨-, hS, hK, hF, -⟩ :=
    handleRailSettleAll_split newWallet ps flags world wallet pre post r w0 _ h hstep
  rw [hmode] at hS hK hF
  refine ⟨?_, ?_, ?_⟩
  · intro hs
    constructor
    · simpa [hs] using hS
    · simpa [hs] using hF
  · intro hs
    constructor
    · simpa [hs] using hF
    · simpa [hs] using hS
  · simpa using hK

theorem execute_confirmation_recorded_witness :
    Enumerated scenarioWallet scenarioService executeFlags 0 { address := "0xPayee" }
      ([{ railId := 1 }] ++ { railId := 2 } :: [{ railId := 3 }]) 0 ∧
    truthy (executeFlags.get "preview") = false ∧
    scenarioService.getRail 2
      (batch scenarioService false { address := "0xPayee" } [{ railId := 1 }] 0).world =
      (Except.ok { from_ := "0xPayer2", to_ := "0xPayee", endEpoch := 0 }, 0) ∧
    scenarioService.getSettlementAmounts "0xPayer2" "0xPayee" 0 =
      (Except.ok { paymentAmount := 10 * usdfc, settlementFee := 2 * usdfc / 10 }, 0) ∧
    10 * usdfc ≠ 0 ∧
    scenarioService.settle "0xPayer2" 0 = (Except.ok { hash := "0xtx0xPayer2" }, 1) ∧
    scenarioService.wait { hash := "0xtx0xPayer2" } 1 =
      (Except.ok { status := some 1, blockNumber := 101, gasUsed := 21000 }, 1) ∧
    ((some 1 : Option Nat) = some 1 →
      scenarioC.state.settled =
        (batch scenarioService false { address := "0xPayee" } [{ railId := 1 }] 0).settled ++
          { railId := 2, payer := "0xPayer2", amount := 10 * usdfc, fee := none,
            txHash := some "0xtx0xPayer2" } ::
          (batch scenarioService false { address := "0xPayee" } [{ railId := 3 }] 1).settled ∧
      scenarioC.state.failed =
        (batch scenarioService false { address := "0xPayee" } [{ railId := 1 }] 0).failed ++
          (batch scenarioService false { address := "0xPayee" } [{ railId := 3 }] 1).failed) :=
  ⟨scenarioC_enumerated, by decide, rfl, rfl, by decide, rfl, rfl,
    (execute_confirmation_recorded scenarioWallet scenarioService executeFlags 0
      { address := "0xPayee" } [{ railId := 1 }] [{ railId := 3 }] { railId := 2 } 0
      { from_ := "0xPayer2", to_ := "0xPayee", endEpoch := 0 } 0
      { paymentAmount := 10 * usdfc, settlementFee := 2 * usdfc / 10 } 0
      { hash := "0xtx0xPayer2" } 1
      { status := some 1, blockNumber := 101, gasUsed := 21000 } 1
      scenarioC_enumerated (by decide) rfl rfl (by decide) rfl rfl).1⟩

/-! ## C6 -/

/-- C6, as the spec states it, fails. In the execute-mode run of Scenario C
the entry of rail 2 in `settled` carries the amount 10.0 and no fee, the total
the summary writes is 10.0, `totalAmount - totalFees` on that array is 10.0,
and 9.8 is neither stored in an entry nor written on any line. -/
theorem scenarioC_not_net :
    scenarioC.state.settled =
      [{ railId := 2, payer := "0xPayer2", amount := 10 * usdfc, fee := none,
         txHash := some "0xtx0xPayer2" }] ∧
    Line.totalSettled (10 * usdfc) ∈ scenarioC.state.log ∧
    totalNet scenarioC.state.settled = 10 * usdfc ∧
    totalNet scenarioC.state.settled ≠ 98 * usdfc / 10 ∧
    (∀ s ∈ scenarioC.state.settled, s.amount ≠ 98 * usdfc / 10) ∧
    (∀ l ∈ scenarioC.state.log, l.amountShown ≠ some (98 * usdfc / 10)) := by
  decide

/-- C6, amended. The execute-mode run of Scenario C does not throw and
produces `skipped = [1]`, `settled = [2]` with the amount 10.0 and the hash of
its transaction (no fee is recorded), `failed = [3]` with the error
`'Transaction failed'`; the summary writes the counts 1, 1, 1 and the total
settled 10.0, the sum of the amounts. -/
theorem scenarioC_report :
    scenarioC.thrown = none ∧
    scenarioC.state.skipped = [{ railId := 1, payer := "0xPayer1" }] ∧
    scenarioC.state.settled =
      [{ railId := 2, payer := "0xPayer2", amount := 10 * usdfc, fee := none,
         txHash := some "0xtx0xPayer2" }] ∧
    scenarioC.state.failed =
      [{ railId := 3, payer := some "0xPayer3", error := "Transaction failed" }] ∧
    scenarioC.state.log =
      [Line.header false, Line.address "0xPayee", Line.found 3,
       Line.noPaymentDue 1 "0xPayer1",
       Line.settling 2 "0xPayer2" (10 * usdfc), Line.confirmed 101,
       Line.settling 3 "0xPayer3" (5 * usdfc), Line.transactionFailed,
       Line.rule, Line.settledCount 1, Line.skippedCount 1, Line.failedCount 1,
       Line.totalSettled (10 * usdfc)] ∧
    scenarioC.state.calls.countP Call.isSettle = 2 := by
  decide

/-! ## C7 -/

/-- C7, as the spec states it, fails. The preview-mode run over the three
rails does not classify them as the execute-mode run does: rail 3 is in
`settled` in preview mode and in `failed` in execute mode. -/
theorem scenarioD_differs :
    scenarioD.state.settledIds = [2, 3] ∧ scenarioC.state.settledIds = [2] ∧
    scenarioD.state.failedIds = [] ∧ scenarioC.state.failedIds = [3] ∧
    scenarioD.state.settledIds ≠ scenarioC.state.settledIds ∧
    scenarioD.state.failedIds ≠ scenarioC.state.failedIds := by
  decide

/-- C7, amended. The preview-mode run over the three rails of Scenario C
submits no transaction and leaves the chain as it was; it skips rail 1 as the
execute-mode run does, lists rail 2 (10.0, fee 0.2) and rail 3 in `settled`,
that is the rails the execute-mode run settles or fails on submission, and
leaves `failed` empty; its console is headed as a preview. -/
theorem scenarioD_report :
    scenarioD.thrown = none ∧
    scenarioD.state.calls.countP Call.isSettle = 0 ∧
    scenarioD.state.world = 0 ∧
    scenarioD.state.skipped = scenarioC.state.skipped ∧
    scenarioD.state.skippedIds = [1] ∧
    scenarioD.state.settled =
      [{ railId := 2, payer := "0xPayer2", amount := 10 * usdfc,
         fee := some (2 * usdfc / 10), txHash := none },
       { railId := 3, payer := "0xPayer3", amount := 5 * usdfc,
         fee := some (usdfc / 10), txHash := none }] ∧
    scenarioD.state.settledIds = scenarioC.state.settledIds ++ scenarioC.state.failedIds ∧
    scenarioD.state.failed = [] ∧
    Line.header true ∈ scenarioD.state.log := by
  decide

/-! ## C8 -/

theorem foldl_add_eq_sum {α : Type} (f : α → Int) (l : List α) (acc : Int) :
    l.foldl (fun sum s => sum + f s) acc = acc + (l.map f).sum := by
  induction l generalizing acc with
  | nil => simp
  | cons a l ih => simp [ih, Int.add_assoc]

theorem totalAmount_eq_sum (settled : List SettledEntry) :
    totalAmount settled = (settled.map SettledEntry.amount).sum := by
  simp [totalAmount, foldl_add_eq_sum]

theorem totalFees_eq_sum (settled : List SettledEntry) :
    totalFees settled = (settled.map feeOrZero).sum := by
  simp [totalFees, foldl_add_eq_sum]

theorem feeOrZero_eq (s : SettledEntry) : feeOrZero s = s.fee.getD 0 := by
  unfold feeOrZero
  cases hf : s.fee with
  | none => simp
  | some fee => by_cases h0 : fee = 0 <;> simp [h0]

theorem sum_fees_of_recorded (settled : List SettledEntry)
    (h : ∀ s ∈ settled, s.fee ≠ none) :
    (settled.map feeOrZero).sum = (settled.filterMap SettledEntry.fee).sum := by
  induction settled with
  | nil => simp
  | cons a l ih =>
    have ha : a.fee ≠ none := h a (List.mem_cons_self a l)
    have hl := ih (fun s hs => h s (List.mem_cons_of_mem a hs))
    cases hf : a.fee with
    | none => exact absurd hf ha
    | some fee => simp [List.filterMap_cons, hf, hl, feeOrZero_eq]

section Preview

variable {σ : Type} (ps : PaymentsService σ) (wallet : Wallet)

/-- In preview mode the body of the loop records the fee in the entry it adds
to `settled`, and the net amount it displays is that entry's amount minus its
fee. -/
theorem processRail_preview_nets (w : σ) (r : RailSummary) :
    (processRail ps true wallet (LoopState.init [] [] w) r).log.filterMap Line.netShown =
      (processRail ps true wallet (LoopState.init [] [] w) r).settled.map
        (fun s => s.amount - s.fee.getD 0) ∧
    ∀ s ∈ (processRail ps true wallet (LoopState.init [] [] w) r).settled, s.fee ≠ none := by
  unfold processRail
  simp only [LoopState.init]
  rcases ps.getRail r.railId w with ⟨_ | rail, w1⟩
  · simp [catchRail, Line.netShown]
  · simp only []
    rcases ps.getSettlementAmounts rail.from_ wallet.address w1 with ⟨_ | amounts, w2⟩
    · simp [catchRail, Line.netShown]
    · by_cases h0 : amounts.paymentAmount = 0 <;> simp [h0, Line.netShown]

theorem batch_preview_nets (rails : List RailSummary) (w : σ) :
    (batch ps true wallet rails w).log.filterMap Line.netShown =
      (batch ps true wallet rails w).settled.map (fun s => s.amount - s.fee.getD 0) ∧
    ∀ s ∈ (batch ps true wallet rails w).settled, s.fee ≠ none := by
  induction rails generalizing w with
  | nil => simp [batch_nil, LoopState.init]
  | cons r rs ih =>
    obtain ⟨h1, h2⟩ := processRail_preview_nets ps wallet w r
    obtain ⟨h3, h4⟩ := ih (processRail ps true wallet (LoopState.init [] [] w) r).world
    rw [batch_cons]
    constructor
    · simp only [LoopState.extend, List.filterMap_append, List.map_append, h1, h3]
    · intro s hs
      simp only [LoopState.extend, List.mem_append] at hs
      rcases hs with hs | hs
      · exact h2 s hs
      · exact h4 s hs

end Preview

/-- C8. In preview mode, when `settled` is not empty, the summary writes
`totalAmount`, the sum of the settled amounts, `totalFees`, the sum of the
settled fees (every entry records one), and `totalNet = totalAmount -
totalFees`; the net amounts displayed rail by rail are the entries'
`amount - fee`, in order, and `totalNet` is their sum. All are integers. -/
theorem preview_totals {σ : Type} (newWallet : FlagValue → Except JsError Wallet)
    (ps : PaymentsService σ) (flags : Flags) (world : σ) (wallet : Wallet)
    (rails : List RailSummary) (w0 : σ)
    (h : Enumerated newWallet ps flags world wallet rails w0)
    (hmode : truthy (flags.get "preview") = true)
    (hne : (handleRailSettleAll newWallet ps flags world).state.settled ≠ []) :
    Line.totalPayment
        (((handleRailSettleAll newWallet ps flags world).state.settled.map
          SettledEntry.amount).sum) ∈
      (handleRailSettleAll newWallet ps flags world).state.log ∧
    Line.totalFeesLine
        (((handleRailSettleAll newWallet ps flags world).state.settled.filterMap
          SettledEntry.fee).sum) ∈
      (handleRailSettleAll newWallet ps flags world).state.log ∧
    Line.totalNetLine
        (((handleRailSettleAll newWallet ps flags world).state.settled.map
            SettledEntry.amount).sum -
          ((handleRailSettleAll newWallet ps flags world).state.settled.filterMap
            SettledEntry.fee).sum) ∈
      (handleRailSettleAll newWallet ps flags world).state.log ∧
    (∀ s ∈ (handleRailSettleAll newWallet ps flags world).state.settled, s.fee ≠ none) ∧
    (handleRailSettleAll newWallet ps flags world).state.log.filterMap Line.netShown =
      (handleRailSettleAll newWallet ps flags world).state.settled.map
        (fun s => s.amount - s.fee.getD 0) ∧
    ((handleRailSettleAll newWallet ps flags world).state.settled.map
          SettledEntry.amount).sum -
        ((handleRailSettleAll newWallet ps flags world).state.settled.filterMap
          SettledEntry.fee).sum =
      ((handleRailSettleAll newWallet ps flags world).state.log.filterMap Line.netShown).sum := by
  rw [handleRailSettleAll_eq newWallet ps flags world wallet rails w0 h, hmode] at hne ⊢
  obtain ⟨hnets, hfee⟩ := batch_preview_nets ps wallet rails w0
  simp only [] at hne
  have hpos : (batch ps true wallet rails w0).settled.length > 0 :=
    List.length_pos.mpr hne
  have hfees := sum_fees_of_recorded _ hfee
  have hlog : List.filterMap Line.netShown
      ([Line.header true, Line.address wallet.address, Line.found rails.length] ++
        (batch ps true wallet rails w0).log ++
        summary true (batch ps true wallet rails w0).settled
          (batch ps true wallet rails w0).skipped (batch ps true wallet rails w0).failed) =
      (batch ps true wallet rails w0).settled.map (fun s => s.amount - s.fee.getD 0) := by
    simp [List.filterMap_append, summary, hpos, Line.netShown, hnets]
  refine ⟨?_, ?_, ?_, hfee, hlog, ?_⟩
  · simp [summary, hpos, totalAmount_eq_sum]
  · simp [summary, hpos, totalFees_eq_sum, hfees]
  · simp [summary, hpos, totalNet, totalAmount_eq_sum, totalFees_eq_sum, hfees]
  · simp only []
    rw [hlog, ← hfees]
    clear hlog hfees hnets hfee hpos hne
    induction (batch ps true wallet rails w0).settled with
    | nil => simp
    | cons a l ih =>
      simp only [List.map_cons, List.sum_cons, feeOrZero_eq] at ih ⊢
      omega

theorem preview_totals_witness :
    Enumerated scenarioWallet scenarioService previewFlags 0 { address := "0xPayee" }
      [{ railId := 1 }, { railId := 2 }, { railId := 3 }] 0 ∧
    truthy (previewFlags.get "preview") = true ∧
    scenarioD.state.settled ≠ [] ∧
    Line.totalPayment ((scenarioD.state.settled.map SettledEntry.amount).sum) ∈
      scenarioD.state.log ∧
    Line.totalFeesLine ((scenarioD.state.settled.filterMap SettledEntry.fee).sum) ∈
      scenarioD.state.log ∧
    Line.totalNetLine
        ((scenarioD.state.settled.map SettledEntry.amount).sum -
          (scenarioD.state.settled.filterMap SettledEntry.fee).sum) ∈
      scenarioD.state.log ∧
    (∀ s ∈ scenarioD.state.settled, s.fee ≠ none) ∧
    scenarioD.state.log.filterMap Line.netShown =
      scenarioD.state.settled.map (fun s => s.amount - s.fee.getD 0) ∧
    (scenarioD.state.settled.map SettledEntry.amount).sum -
        (scenarioD.state.settled.filterMap SettledEntry.fee).sum =
      (scenarioD.state.log.filterMap Line.netShown).sum :=
  ⟨scenarioD_enumerated, by decide, by decide,
    preview_totals scenarioWallet scenarioService previewFlags 0 { address := "0xPayee" }
      [{ railId := 1 }, { railId := 2 }, { railId := 3 }] 0 scenarioD_enumerated
      (by decide) (by decide)⟩

/-! ## C9 -/

/-- C9, as the spec states it, fails. In the execute-mode run on the faulty
chain rail 2 throws the recognised `RailInactiveOrSettled` error and rail 3
another error; the two entries of `failed` have the same fields, the rail id
and the message as thrown, and no payer; neither holds the label `Already
settled` or `Error`, which the console lines alone carry; and the `catch`
block run for one rail on the two errors pushes entries that agree in every
field but the message. -/
theorem failure_record_unclassified :
    includes "execution reverted: RailInactiveOrSettled(2)" "RailInactiveOrSettled" = true ∧
    includes "nonce too low" "RailInactiveOrSettled" = false ∧
    raceRun.state.failed =
      [{ railId := 2, payer := none, error := "execution reverted: RailInactiveOrSettled(2)" },
       { railId := 3, payer := none, error := "nonce too low" }] ∧
    (∀ f ∈ raceRun.state.failed, f.payer = none ∧ f.error ≠ "Already settled" ∧
      f.error ≠ "Error") ∧
    Line.railError 2 "Already settled" ∈ raceRun.state.log ∧
    Line.railError 3 "Error" ∈ raceRun.state.log ∧
    (catchRail 2 { message := "execution reverted: RailInactiveOrSettled(2)" }
        (LoopState.init [] [] (0 : Nat))).failed.map (fun f => (f.railId, f.payer)) =
      (catchRail 2 { message := "nonce too low" }
        (LoopState.init [] [] (0 : Nat))).failed.map (fun f => (f.railId, f.payer)) := by
  decide

/-- C9, amended. In batch mode every error thrown by a step of a rail, the
recognised `RailInactiveOrSettled` condition included, adds to `failed` the
same record `{ railId, error: error.message }`: the rail id and the message as
thrown, with no payer and no field that classifies the error, and nothing is
added to `settled` or `skipped`. The condition is told apart on the console
line only, which reads `Already settled` when the message includes
`'RailInactiveOrSettled'` and `Error` otherwise. -/
theorem failure_record_uniform {σ : Type} (ps : PaymentsService σ) (isPreview : Bool)
    (wallet : Wallet) (st : LoopState σ) (r : RailSummary) (error : JsError) (w' : σ)
    (h : Throws ps isPreview wallet r st.world error w') :
    (processRail ps isPreview wallet st r).failed =
      st.failed ++ [{ railId := r.railId, payer := none, error := error.message }] ∧
    (processRail ps isPreview wallet st r).settled = st.settled ∧
    (processRail ps isPreview wallet st r).skipped = st.skipped ∧
    (includes error.message "RailInactiveOrSettled" = true →
      Line.railError r.railId "Already settled" ∈ (processRail ps isPreview wallet st r).log) ∧
    (includes error.message "RailInactiveOrSettled" = false →
      Line.railError r.railId "Error" ∈ (processRail ps isPreview wallet st r).log) := by
  obtain ⟨hS, hK, hF, -, hL⟩ := processRail_throws ps isPreview wallet _ r error w' h
  rw [processRail_extend]
  refine ⟨?_, ?_, ?_, ?_, ?_⟩
  · simp [LoopState.extend, hF]
  · simp [LoopState.extend, hS]
  · simp [LoopState.extend, hK]
  · intro hrec
    rw [hrec] at hL
    simp only [LoopState.extend, List.mem_append]
    exact Or.inr (by simpa using hL)
  · intro hgen
    rw [hgen] at hL
    simp only [LoopState.extend, List.mem_append]
    exact Or.inr (by simpa using hL)

theorem raceService_throws_rail2 :
    Throws raceService false { address := "0xPayee" } { railId := 2 }
      (LoopState.init [] [] (0 : Nat)).world
      { message := "execution reverted: RailInactiveOrSettled(2)" } 0 :=
  Throws.getSettlementAmounts { from_ := "0xPayer2", to_ := "0xPayee", endEpoch := 0 } 0
    rfl rfl

theorem failure_record_uniform_witness :
    Throws raceService false { address := "0xPayee" } { railId := 2 }
      (LoopState.init [] [] (0 : Nat)).world
      { message := "execution reverted: RailInactiveOrSettled(2)" } 0 ∧
    (processRail raceService false { address := "0xPayee" } (LoopState.init [] [] 0)
        { railId := 2 }).failed =
      [] ++ [{ railId := 2, payer := none,
               error := "execution reverted: RailInactiveOrSettled(2)" }] :=
  ⟨raceService_throws_rail2,
    (failure_record_uniform raceService false { address := "0xPayee" }
      (LoopState.init [] [] 0) { railId := 2 }
      { message := "execution reverted: RailInactiveOrSettled(2)" } 0
      raceService_throws_rail2).1⟩

/-! ## C10 -/

/-- C10, as the spec states it, fails. For an account whose
`currentLockupRate` is 0, `balance --json` (with or without `--detailed`)
returns without throwing and without the line saying that all funds are
available for withdrawal. -/
theorem balance_json_not_reported :
    idleAccount.currentLockupRate = 0 ∧
    (handleBalance (fixedContracts idleAccount) (balanceFlags ["json"]) ()).thrown = none ∧
    BalanceLine.fullyWithdrawable ∉
      (handleBalance (fixedContracts idleAccount) (balanceFlags ["json"]) ()).log ∧
    BalanceLine.fullyWithdrawable ∉
      (handleBalance (fixedContracts idleAccount) (balanceFlags ["json", "detailed"]) ()).log ∧
    (handleBalance (fixedContracts idleAccount) (balanceFlags ["json"]) ()).log =
      [BalanceLine.json (FlagValue.value "0xA11CE") idleAccount] := by
  decide

/-- C10, amended. For every account returned to `handleBalance` and every
value of the flags, the line saying that all funds are available for
withdrawal is written if and only if `currentLockupRate = 0`, `flags.json` is
falsy and the function reaches its end (with `flags.detailed` truthy, the
read of the wallet balance returns). The locked amount
`currentFunds - availableFunds` is written exactly in that detailed, non-JSON
case. For the account of Scenario A the line is never written and the locked
amount is 60.0. -/
theorem fully_withdrawable_reported {σ : Type} (contracts : BalanceContracts σ)
    (flags : Flags) (world : σ) (accountAddress : FlagValue) (info : AccountInfo) (w1 : σ)
    (hacc : flags.get "account" = some accountAddress)
    (ht : truthy (some accountAddress) = true)
    (hread : contracts.getAccountInfoIfSettled accountAddress world = (Except.ok info, w1)) :
    (BalanceLine.fullyWithdrawable ∈ (handleBalance contracts flags world).log ↔
      info.currentLockupRate = 0 ∧ truthy (flags.get "json") = false ∧
        (truthy (flags.get "detailed") = true →
          ∃ b w2, contracts.balanceOf accountAddress w1 = (Except.ok b, w2))) ∧
    (∀ x, BalanceLine.lockedAmount x ∈ (handleBalance contracts flags world).log ↔
      x = info.currentFunds - info.availableFunds ∧ truthy (flags.get "json") = false ∧
        truthy (flags.get "detailed") = true ∧
        ∃ b w2, contracts.balanceOf accountAddress w1 = (Except.ok b, w2)) ∧
    (info.currentFunds = 100 * usdfc → info.availableFunds = 40 * usdfc →
      info.currentLockupRate = 2 * usdfc →
      BalanceLine.fullyWithdrawable ∉ (handleBalance contracts flags world).log ∧
      info.currentFunds - info.availableFunds = 60 * usdfc) := by
  unfold handleBalance
  simp only [hacc, ht, hread]
  by_cases hj : truthy (flags.get "json") = true
  · simp [hj]
    intro hf ha
    rw [hf, ha]
    simp [usdfc]
  · have hj' : truthy (flags.get "json") = false := by simpa using hj
    by_cases hd : truthy (flags.get "detailed") = true
    · rcases hb : contracts.balanceOf accountAddress w1 with ⟨error | b, w2⟩
      · simp [hj', hd]
        intro hf ha hr
        rw [hf, ha]
        simp [usdfc]
      · by_cases hz : info.currentLockupRate = 0
        · simp [hj', hd, hz, eq_comm]
          intro hf ha hr
          simp [usdfc] at hr
        · simp [hj', hd, hz, eq_comm]
          intro hf ha hr
          rw [hf, ha]
          simp [usdfc]
    · have hd' : truthy (flags.get "detailed") = false := by simpa using hd
      by_cases hz : info.currentLockupRate = 0
      · simp [hj', hd', hz]
        intro hf ha hr
        simp [usdfc] at hr
      · simp [hj', hd', hz]
        intro hf ha hr
        rw [hf, ha]
        simp [usdfc]

/-- With `flags.json` truthy, `handleBalance` writes the JSON object of the
address and the four values and nothing else, and returns. -/
theorem handleBalance_json {σ : Type} (contracts : BalanceContracts σ)
    (flags : Flags) (world : σ) (accountAddress : FlagValue) (info : AccountInfo) (w1 : σ)
    (hacc : flags.get "account" = some accountAddress)
    (ht : truthy (some accountAddress) = true)
    (hread : contracts.getAccountInfoIfSettled accountAddress world = (Except.ok info, w1))
    (hjson : truthy (flags.get "json") = true) :
    (handleBalance contracts flags world).thrown = none ∧
    (handleBalance contracts flags world).log = [BalanceLine.json accountAddress info] := by
  unfold handleBalance
  simp [hacc, ht, hread, hjson]

theorem fully_withdrawable_reported_witness :
    (balanceFlags ["detailed"]).get "account" = some (FlagValue.value "0xA11CE") ∧
    truthy (some (FlagValue.value "0xA11CE")) = true ∧
    (fixedContracts scenarioA).getAccountInfoIfSettled (FlagValue.value "0xA11CE") () =
      (Except.ok scenarioA, ()) ∧
    (scenarioA.currentFunds = 100 * usdfc → scenarioA.availableFunds = 40 * usdfc →
      scenarioA.currentLockupRate = 2 * usdfc →
      BalanceLine.fullyWithdrawable ∉
        (handleBalance (fixedContracts scenarioA) (balanceFlags ["detailed"]) ()).log ∧
      scenarioA.currentFunds - scenarioA.availableFunds = 60 * usdfc) :=
  ⟨by decide, by decide, rfl,
    (fully_withdrawable_reported (fixedContracts scenarioA) (balanceFlags ["detailed"]) ()
      (FlagValue.value "0xA11CE") scenarioA () (by decide) (by decide) rfl).2.2⟩

/-! ## C13 -/

/-- The ids recorded in each array by a run of the loop are, in order, a
subsequence of the ids the loop went through. -/
theorem batch_ids_sublist {σ : Type} (ps : PaymentsService σ) (isPreview : Bool)
    (wallet : Wallet) (rails : List RailSummary) (w : σ) :
    List.Sublist (batch ps isPreview wallet rails w).settledIds
        (rails.map RailSummary.railId) ∧
    List.Sublist (batch ps isPreview wallet rails w).skippedIds
        (rails.map RailSummary.railId) ∧
    List.Sublist (batch ps isPreview wallet rails w).failedIds
        (rails.map RailSummary.railId) := by
  induction rails generalizing w with
  | nil => simp [batch_nil, LoopState.init, LoopState.settledIds, LoopState.skippedIds,
      LoopState.failedIds]
  | cons r rs ih =>
    obtain ⟨hS, hK, hF⟩ := ih (processRail ps isPreview wallet (LoopState.init [] [] w) r).world
    rw [batch_cons]
    have eS : ∀ a b : LoopState σ, (a.extend b).settledIds = a.settledIds ++ b.settledIds := by
      intro a b; simp [LoopState.extend, LoopState.settledIds]
    have eK : ∀ a b : LoopState σ, (a.extend b).skippedIds = a.skippedIds ++ b.skippedIds := by
      intro a b; simp [LoopState.extend, LoopState.skippedIds]
    have eF : ∀ a b : LoopState σ, (a.extend b).failedIds = a.failedIds ++ b.failedIds := by
      intro a b; simp [LoopState.extend, LoopState.failedIds]
    rw [eS, eK, eF, List.map_cons]
    rcases processRail_one_entry ps isPreview wallet w r with ⟨h1, h2, h3⟩ | ⟨h1, h2, h3⟩ |
      ⟨h1, h2, h3⟩ <;> rw [h1, h2, h3] <;>
      simp only [List.nil_append, List.singleton_append] <;>
      exact ⟨by first | exact hS.cons₂ _ | exact hS.cons _,
        by first | exact hK.cons₂ _ | exact hK.cons _,
        by first | exact hF.cons₂ _ | exact hF.cons _⟩

/-- C13. For every run of `handleRailSettleAll` that enumerated its rails, the
rail ids of `settled`, of `skipped` and of `failed` are each, in order, a
subsequence of the rail ids in the order `getRailsAsPayee` returned them: the
loop goes through the rails in that order and only appends. -/
theorem settleAll_order {σ : Type} (newWallet : FlagValue → Except JsError Wallet)
    (ps : PaymentsService σ) (flags : Flags) (world : σ) (wallet : Wallet)
    (rails : List RailSummary) (w0 : σ)
    (h : Enumerated newWallet ps flags world wallet rails w0) :
    List.Sublist (handleRailSettleAll newWallet ps flags world).state.settledIds
        (rails.map RailSummary.railId) ∧
    List.Sublist (handleRailSettleAll newWallet ps flags world).state.skippedIds
        (rails.map RailSummary.railId) ∧
    List.Sublist (handleRailSettleAll newWallet ps flags world).state.failedIds
        (rails.map RailSummary.railId) := by
  rw [handleRailSettleAll_eq newWallet ps flags world wallet rails w0 h]
  exact batch_ids_sublist ps (truthy (flags.get "preview")) wallet rails w0

theorem settleAll_order_witness :
    Enumerated scenarioWallet scenarioService executeFlags 0 { address := "0xPayee" }
      [{ railId := 1 }, { railId := 2 }, { railId := 3 }] 0 ∧
    (List.Sublist scenarioC.state.settledIds [1, 2, 3] ∧
      List.Sublist scenarioC.state.skippedIds [1, 2, 3] ∧
      List.Sublist scenarioC.state.failedIds [1, 2, 3]) :=
  ⟨scenarioC_enumerated,
    settleAll_order scenarioWallet scenarioService executeFlags 0 { address := "0xPayee" }
      [{ railId := 1 }, { railId := 2 }, { railId := 3 }] 0 scenarioC_enumerated⟩

/-! ## C11 -/

/-- C11. Once the amount is read and the wallet is built: when the account is
read, `handleWithdraw` raises its own `Insufficient available funds` error
with no transaction submitted if and only if `availableFunds < amount`; it
then has made no call but the read, and otherwise (an amount equal to
`availableFunds` included) it does not raise that error and calls `withdraw`
once with the amount, its only submission. Likewise, when the wallet balance
is read, `handleDeposit` raises its own `Insufficient wallet balance` error
with no `approve` or `deposit` submitted if and only if
`walletBalance < amount`; it then has made no call but the read, and otherwise
it does not raise that error and goes on to read the allowance. -/
theorem insufficient_funds_precheck {σ : Type} (parseUnits : String → Except JsError Int)
    (newWallet : FlagValue → Except JsError Wallet) (paymentsService : WalletService σ)
    (amountStr : String) (flags : Flags) (world : σ) (privateKey : FlagValue)
    (amount : Int) (wallet : Wallet)
    (hamount : truthyArg (some amountStr) = true)
    (hkey : flags.get "key" = some privateKey)
    (hk : truthy (some privateKey) = true)
    (hparse : parseUnits amountStr = Except.ok amount)
    (hwallet : newWallet privateKey = Except.ok wallet) :
    (∀ (accountInfo : PaymentsAccount) (w1 : σ),
      paymentsService.accountInfo world = (Except.ok accountInfo, w1) →
      (((handleWithdraw parseUnits newWallet paymentsService (some amountStr) flags
            world).ending =
          Ending.threw (Thrown.byHandler "Insufficient available funds") ∧
        (handleWithdraw parseUnits newWallet paymentsService (some amountStr) flags
            world).calls.countP WalletCall.isSubmission = 0) ↔
        accountInfo.availableFunds < amount) ∧
      (accountInfo.availableFunds < amount →
        (handleWithdraw parseUnits newWallet paymentsService (some amountStr) flags
            world).calls = [WalletCall.accountInfo]) ∧
      (amount ≤ accountInfo.availableFunds →
        (handleWithdraw parseUnits newWallet paymentsService (some amountStr) flags
            world).ending ≠
          Ending.threw (Thrown.byHandler "Insufficient available funds") ∧
        (handleWithdraw parseUnits newWallet paymentsService (some amountStr) flags
            world).calls.count (WalletCall.withdraw amount) = 1 ∧
        (handleWithdraw parseUnits newWallet paymentsService (some amountStr) flags
            world).calls.countP WalletCall.isSubmission = 1)) ∧
    (∀ (walletBalance : Int) (w1 : σ),
      paymentsService.walletBalance world = (Except.ok walletBalance, w1) →
      (((handleDeposit parseUnits newWallet paymentsService (some amountStr) flags
            world).ending =
          Ending.threw (Thrown.byHandler "Insufficient wallet balance") ∧
        (handleDeposit parseUnits newWallet paymentsService (some amountStr) flags
            world).calls.countP WalletCall.isSubmission = 0) ↔
        walletBalance < amount) ∧
      (walletBalance < amount →
        (handleDeposit parseUnits newWallet paymentsService (some amountStr) flags
            world).calls = [WalletCall.walletBalance]) ∧
      (amount ≤ walletBalance →
        (handleDeposit parseUnits newWallet paymentsService (some amountStr) flags
            world).ending ≠
          Ending.threw (Thrown.byHandler "Insufficient wallet balance") ∧
        WalletCall.allowance ∈
          (handleDeposit parseUnits newWallet paymentsService (some amountStr) flags
            world).calls)) := by
  constructor
  · intro accountInfo w1 hread
    unfold handleWithdraw
    simp only [hamount, hkey, hk, hparse, hwallet, hread]
    by_cases hlt : accountInfo.availableFunds < amount
    · simp [hlt, WalletCall.isSubmission]
    · have hle : amount ≤ accountInfo.availableFunds := by omega
      simp only [hlt, if_false]
      rcases paymentsService.withdraw amount w1 with ⟨error | tx, w2⟩
      · simp [hle, WalletCall.isSubmission]
      · simp only []
        rcases paymentsService.wait tx w2 with ⟨error | receipt, w3⟩
        · simp [hle, WalletCall.isSubmission]
        · by_cases hs : receipt.status = some 1 <;> simp [hs, hle, WalletCall.isSubmission]
  · intro walletBalance w1 hread
    unfold handleDeposit
    simp only [hamount, hkey, hk, hparse, hwallet, hread]
    by_cases hlt : walletBalance < amount
    · simp [hlt, WalletCall.isSubmission]
    · have hle : amount ≤ walletBalance := by omega
      simp only [hlt, if_false]
      rcases paymentsService.allowance w1 with ⟨error | currentAllowance, w2⟩
      · simp [hle]
      · simp only []
        by_cases ha : currentAllowance < amount
        · simp only [ha, if_true]
          rcases paymentsService.approve amount w2 with ⟨error | approveTx, w3⟩
          · simp [hle, WalletCall.isSubmission]
          · simp only []
            rcases paymentsService.wait approveTx w3 with ⟨error | r, w4⟩
            · simp [hle, WalletCall.isSubmission]
            · simp only [depositStep]
              rcases paymentsService.deposit amount w4 with ⟨error | depositTx, w5⟩
              · simp [hle, WalletCall.isSubmission]
              · simp only []
                rcases paymentsService.wait depositTx w5 with ⟨error | receipt, w6⟩
                · simp [hle, WalletCall.isSubmission]
                · by_cases hs : receipt.status = some 1 <;>
                    simp [hs, hle, WalletCall.isSubmission]
        · simp only [ha, if_false, depositStep]
          rcases paymentsService.deposit amount w2 with ⟨error | depositTx, w5⟩
          · simp [hle, WalletCall.isSubmission]
          · simp only []
            rcases paymentsService.wait depositTx w5 with ⟨error | receipt, w6⟩
            · simp [hle, WalletCall.isSubmission]
            · by_cases hs : receipt.status = some 1 <;>
                simp [hs, hle, WalletCall.isSubmission]

theorem insufficient_funds_precheck_witness :
    truthyArg (some "40") = true ∧
    executeFlags.get "key" = some (FlagValue.value "0xKEY") ∧
    truthy (some (FlagValue.value "0xKEY")) = true ∧
    scenarioParseUnits "40" = Except.ok (40 * usdfc) ∧
    scenarioWallet (FlagValue.value "0xKEY") = Except.ok { address := "0xPayee" } ∧
    vaultService.accountInfo 0 =
      (Except.ok { funds := 100 * usdfc, availableFunds := 40 * usdfc }, 0) ∧
    40 * usdfc ≤ 40 * usdfc ∧
    ((handleWithdraw scenarioParseUnits scenarioWallet vaultService (some "40") executeFlags
          0).ending ≠
        Ending.threw (Thrown.byHandler "Insufficient available funds") ∧
      (handleWithdraw scenarioParseUnits scenarioWallet vaultService (some "40") executeFlags
          0).calls.count (WalletCall.withdraw (40 * usdfc)) = 1 ∧
      (handleWithdraw scenarioParseUnits scenarioWallet vaultService (some "40") executeFlags
          0).calls.countP WalletCall.isSubmission = 1) :=
  ⟨by decide, by decide, by decide, rfl, rfl, rfl, by decide,
    ((insufficient_funds_precheck scenarioParseUnits scenarioWallet vaultService "40"
      executeFlags 0 (FlagValue.value "0xKEY") (40 * usdfc) { address := "0xPayee" }
      (by decide) (by decide) (by decide) rfl rfl).1
      { funds := 100 * usdfc, availableFunds := 40 * usdfc } 0 rfl).2.2 (by decide)⟩

/-! ## C12 -/

/-- The settlement of lines 166-178 calls `settle` once. -/
theorem settleStep_calls {σ : Type} (ps : SettleService σ) (payerAddr : Option String)
    (log : List SettleLine) (calls : List SettleCall) (w : σ) :
    (settleStep ps payerAddr log calls w).calls.countP SettleCall.isSettle =
      calls.countP SettleCall.isSettle + 1 := by
  unfold settleStep
  rcases ps.settle payerAddr w with ⟨error | tx, w1⟩
  · simp [SettleCall.isSettle]
  · simp only []
    rcases ps.wait tx w1 with ⟨error | receipt, w2⟩
    · simp [SettleCall.isSettle]
    · by_cases hs : receipt.status = some 1 <;> simp [hs, SettleCall.isSettle]

/-- The settlement of lines 166-178, when the transaction is submitted and its
confirmation arrives: it returns on status 1 and throws otherwise. -/
theorem settleStep_ending {σ : Type} (ps : SettleService σ) (payerAddr : Option String)
    (log : List SettleLine) (calls : List SettleCall) (w : σ)
    (tx : TransactionResponse) (w1 : σ) (receipt : TransactionReceipt) (w2 : σ)
    (h1 : ps.settle payerAddr w = (Except.ok tx, w1))
    (h2 : ps.wait tx w1 = (Except.ok receipt, w2)) :
    (receipt.status = some 1 →
      (settleStep ps payerAddr log calls w).ending = Ending.returned) ∧
    (receipt.status ≠ some 1 →
      (settleStep ps payerAddr log calls w).ending =
        Ending.threw (Thrown.byHandler "Settlement transaction failed")) := by
  unfold settleStep
  by_cases hs : receipt.status = some 1 <;> simp [h1, h2, hs]

/-- C12. Once the wallet is built and the settlement preview has returned:
with `paymentAmount = 0` `handleRailSettle` returns without an error and
without calling `settle`; `settle` is called at most once, and it is called
if and only if `paymentAmount` is not zero and either `flags.yes` is truthy or
the response read from the terminal, trimmed, is exactly `y` or `Y`; when it
is called and the confirmation arrives, the function returns on status 1 and
throws `Settlement transaction failed` on any other status. -/
theorem single_settle_gate {σ : Type} (newWallet : FlagValue → Except JsError Wallet)
    (ps : SettleService σ) (stdinData : σ → Option String × σ)
    (payerAddr : Option String) (flags : Flags) (world : σ) (privateKey : FlagValue)
    (wallet : Wallet) (amounts : SettlementAmounts) (w1 : σ)
    (hkey : flags.get "key" = some privateKey)
    (hk : truthy (some privateKey) = true)
    (hwallet : newWallet privateKey = Except.ok wallet)
    (hread : ps.getSettlementAmounts payerAddr wallet.address world =
      (Except.ok amounts, w1)) :
    (amounts.paymentAmount = 0 →
      (handleRailSettle newWallet ps stdinData payerAddr flags world).ending =
        Ending.returned ∧
      (handleRailSettle newWallet ps stdinData payerAddr flags world).calls.countP
        SettleCall.isSettle = 0) ∧
    (handleRailSettle newWallet ps stdinData payerAddr flags world).calls.countP
      SettleCall.isSettle ≤ 1 ∧
    ((handleRailSettle newWallet ps stdinData payerAddr flags world).calls.countP
        SettleCall.isSettle = 1 ↔
      amounts.paymentAmount ≠ 0 ∧
        (truthy (flags.get "yes") = true ∨
          ∃ data w2, stdinData w1 = (some data, w2) ∧
            (jsTrim data = "y" ∨ jsTrim data = "Y"))) ∧
    (amounts.paymentAmount ≠ 0 →
      ∀ ws : σ,
        (truthy (flags.get "yes") = true ∧ ws = w1) ∨
          (truthy (flags.get "yes") = false ∧
            ∃ data, stdinData w1 = (some data, ws) ∧
              (jsTrim data = "y" ∨ jsTrim data = "Y")) →
        ∀ (tx : TransactionResponse) (w3 : σ) (receipt : TransactionReceipt) (w4 : σ),
          ps.settle payerAddr ws = (Except.ok tx, w3) →
          ps.wait tx w3 = (Except.ok receipt, w4) →
          (receipt.status = some 1 →
            (handleRailSettle newWallet ps stdinData payerAddr flags world).ending =
              Ending.returned) ∧
          (receipt.status ≠ some 1 →
            (handleRailSettle newWallet ps stdinData payerAddr flags world).ending =
              Ending.threw (Thrown.byHandler "Settlement transaction failed"))) := by
  unfold handleRailSettle
  simp only [hkey, hk, hwallet, hread, Bool.true_eq_false, if_false]
  by_cases h0 : amounts.paymentAmount = 0
  · rw [if_pos h0]
    simp [h0, SettleCall.isSettle]
  · rw [if_neg h0]
    by_cases hy : truthy (flags.get "yes") = true
    · rw [if_neg (by simp [hy])]
      refine ⟨fun h => absurd h h0, ?_, ?_, ?_⟩
      · rw [settleStep_calls]
        simp [SettleCall.isSettle]
      · rw [settleStep_calls]
        simp [SettleCall.isSettle, h0, hy]
      · intro _ ws hws tx w3 receipt w4 h3 h4
        rcases hws with ⟨-, hws⟩ | ⟨hf, -⟩
        · subst hws
          exact settleStep_ending ps payerAddr _ _ _ tx w3 receipt w4 h3 h4
        · rw [hf] at hy
          exact Bool.noConfusion hy
    · have hy' : truthy (flags.get "yes") = false := by simpa using hy
      rw [if_pos hy']
      rcases hin : stdinData w1 with ⟨_ | data, w2⟩
      · simp only []
        refine ⟨fun h => absurd h h0, ?_, ?_, ?_⟩
        · simp [SettleCall.isSettle]
        · simp [SettleCall.isSettle, hy']
        · intro _ ws hws
          rcases hws with ⟨hf, -⟩ | ⟨-, d, hd, -⟩
          · exact absurd hf hy
          · simp at hd
      · by_cases hresp : jsTrim data ≠ "y" ∧ jsTrim data ≠ "Y"
        · have hno : ¬ (jsTrim data = "y" ∨ jsTrim data = "Y") := by
            intro h
            rcases h with h | h
            · exact hresp.1 h
            · exact hresp.2 h
          simp only []
          rw [if_pos hresp]
          refine ⟨fun h => absurd h h0, ?_, ?_, ?_⟩
          · simp [SettleCall.isSettle]
          · simp [SettleCall.isSettle, hno, hy']
          · intro _ ws hws
            rcases hws with ⟨hf, -⟩ | ⟨-, d, hd, hyes⟩
            · exact absurd hf hy
            · simp only [Prod.mk.injEq, Option.some.injEq] at hd
              rw [← hd.1] at hyes
              exact absurd hyes hno
        · have hyes : jsTrim data = "y" ∨ jsTrim data = "Y" := by
            by_contra hcon
            exact hresp ⟨fun h => hcon (Or.inl h), fun h => hcon (Or.inr h)⟩
          simp only []
          rw [if_neg hresp]
          refine ⟨fun h => absurd h h0, ?_, ?_, ?_⟩
          · rw [settleStep_calls]
            simp [SettleCall.isSettle]
          · rw [settleStep_calls]
            simp [SettleCall.isSettle, h0, hyes]
          · intro _ ws hws tx w3 receipt w4 h3 h4
            rcases hws with ⟨hf, -⟩ | ⟨-, d, hd, -⟩
            · exact absurd hf hy
            · simp only [Prod.mk.injEq, Option.some.injEq] at hd
              rw [← hd.2] at h3
              exact settleStep_ending ps payerAddr _ _ _ tx w3 receipt w4 h3 h4

theorem single_settle_gate_witness :
    executeFlags.get "key" = some (FlagValue.value "0xKEY") ∧
    truthy (some (FlagValue.value "0xKEY")) = true ∧
    scenarioWallet (FlagValue.value "0xKEY") = Except.ok { address := "0xPayee" } ∧
    singleService.getSettlementAmounts (some "0xPayer1") "0xPayee" 0 =
      (Except.ok { paymentAmount := 0, settlementFee := 0 }, 0) ∧
    ((0 : Int) = 0 →
      (handleRailSettle scenarioWallet singleService typedYes (some "0xPayer1") executeFlags
          0).ending = Ending.returned ∧
      (handleRailSettle scenarioWallet singleService typedYes (some "0xPayer1") executeFlags
          0).calls.countP SettleCall.isSettle = 0) :=
  ⟨by decide, by decide, rfl, rfl,
    (single_settle_gate scenarioWallet singleService typedYes (some "0xPayer1") executeFlags 0
      (FlagValue.value "0xKEY") { address := "0xPayee" }
      { paymentAmount := 0, settlementFee := 0 } 0 (by decide) (by decide) rfl rfl).1⟩

/-! ## C14 -/

theorem startsWithDashes_token (name : String) : startsWithDashes ("--" ++ name) = true := by
  simp [startsWithDashes, String.data_append, List.isPrefixOf]

theorem slice2_token (name : String) : slice2 ("--" ++ name) = name := by
  simp [slice2, String.data_append]

theorem token_of_startsWithDashes (arg : String) (h : startsWithDashes arg = true) :
    arg = "--" ++ slice2 arg := by
  apply String.ext
  simp only [String.data_append, slice2]
  unfold startsWithDashes at h
  rcases hd : arg.data with _ | ⟨a, _ | ⟨b, rest⟩⟩ <;> rw [hd] at h <;>
    simp [List.isPrefixOf] at h ⊢
  obtain ⟨h1, h2⟩ := h
  simp [← h1, ← h2]

theorem Flags.get_set_ne (flags : Flags) (key name : String) (v : FlagValue)
    (hne : name ≠ key) : (flags.set key v).get name = flags.get name := by
  unfold Flags.set
  by_cases hp : key = "__proto__"
  · simp [hp]
  · have : (name == key) = false := by simpa using hne
    simp [hp, Flags.get, List.lookup_cons, this]

theorem Flags.get_set_self (flags : Flags) (key : String) (v : FlagValue)
    (hp : key ≠ "__proto__") : (flags.set key v).get key = some v := by
  unfold Flags.set
  simp [hp, Flags.get, List.lookup_cons]

theorem Flags.get_set_proto (flags : Flags) (key : String) (v : FlagValue) :
    (flags.set key v).get "__proto__" = flags.get "__proto__" := by
  by_cases hp : key = "__proto__"
  · unfold Flags.set
    simp [hp]
  · exact Flags.get_set_ne flags key "__proto__" v (fun h => hp h.symm)

/-- No token `--name` in the arguments: the loop leaves `flags.name` as it
was. -/
theorem flagLoop_absent (name : String) (l : List String) (flags : Flags)
    (h : ∀ j : Nat, l[j]? ≠ some ("--" ++ name)) :
    (flagLoop l flags).get name = flags.get name := by
  induction l, flags using flagLoop.induct with
  | case1 flags => simp [flagLoop]
  | case2 arg flags hs =>
    have h0 := h 0
    simp only [List.getElem?_cons_zero, ne_eq, Option.some.injEq] at h0
    have hne : name ≠ slice2 arg := by
      intro heq
      exact h0 (by rw [heq]; exact token_of_startsWithDashes arg hs)
    simp [flagLoop, hs, Flags.get_set_ne _ _ _ _ hne]
  | case3 arg flags hs => simp [flagLoop, hs]
  | case4 arg next rest flags hs hn ih =>
    have h0 := h 0
    simp only [List.getElem?_cons_zero, ne_eq, Option.some.injEq] at h0
    have hne : name ≠ slice2 arg := by
      intro heq
      exact h0 (by rw [heq]; exact token_of_startsWithDashes arg hs)
    have hrest : ∀ j : Nat, rest[j]? ≠ some ("--" ++ name) := by
      intro j
      have := h (j + 2)
      simpa using this
    rw [flagLoop, if_pos hs, if_pos hn, ih hrest, Flags.get_set_ne _ _ _ _ hne]
  | case5 arg next rest flags hs hn ih =>
    have h0 := h 0
    simp only [List.getElem?_cons_zero, ne_eq, Option.some.injEq] at h0
    have hne : name ≠ slice2 arg := by
      intro heq
      exact h0 (by rw [heq]; exact token_of_startsWithDashes arg hs)
    have hrest : ∀ j : Nat, (next :: rest)[j]? ≠ some ("--" ++ name) := by
      intro j
      have := h (j + 1)
      simpa using this
    rw [flagLoop, if_pos hs, if_neg hn, ih hrest, Flags.get_set_ne _ _ _ _ hne]
  | case6 arg next rest flags hs ih =>
    have hrest : ∀ j : Nat, (next :: rest)[j]? ≠ some ("--" ++ name) := by
      intro j
      have := h (j + 1)
      simpa using this
    rw [flagLoop, if_neg hs, ih hrest]

/-- The last token `--name` of the arguments decides `flags.name`. -/
theorem flagLoop_last (name : String) (hname : name ≠ "__proto__") (l : List String)
    (flags : Flags) (k : Nat) (hk : l[k]? = some ("--" ++ name))
    (hlast : ∀ j : Nat, k < j → l[j]? ≠ some ("--" ++ name)) :
    (flagLoop l flags).get name = some (valueAfter l k) := by
  induction l, flags using flagLoop.induct generalizing k with
  | case1 flags => simp at hk
  | case2 arg flags hs =>
    cases k with
    | zero =>
      simp only [List.getElem?_cons_zero, Option.some.injEq] at hk
      subst hk
      simp [flagLoop, startsWithDashes_token, slice2_token, Flags.get_set_self _ _ _ hname,
        valueAfter]
    | succ k => simp at hk
  | case3 arg flags hs =>
    cases k with
    | zero =>
      simp only [List.getElem?_cons_zero, Option.some.injEq] at hk
      subst hk
      exact absurd (startsWithDashes_token name) hs
    | succ k => simp at hk
  | case4 arg next rest flags hs hn ih =>
    have hn' : startsWithDashes next = false := by simpa using hn
    cases k with
    | zero =>
      simp only [List.getElem?_cons_zero, Option.some.injEq] at hk
      subst hk
      have hrest : ∀ j : Nat, rest[j]? ≠ some ("--" ++ name) := by
        intro j
        have := hlast (j + 2) (by omega)
        simpa using this
      rw [flagLoop, if_pos (startsWithDashes_token name), if_pos hn,
        flagLoop_absent name rest _ hrest, slice2_token, Flags.get_set_self _ _ _ hname]
      simp [valueAfter, hn']
    | succ k =>
      cases k with
      | zero =>
        simp only [zero_add, List.getElem?_cons_succ, List.getElem?_cons_zero,
          Option.some.injEq] at hk
        subst hk
        rw [startsWithDashes_token] at hn'
        exact Bool.noConfusion hn'
      | succ k =>
        have hk' : rest[k]? = some ("--" ++ name) := by simpa using hk
        have hlast' : ∀ j : Nat, k < j → rest[j]? ≠ some ("--" ++ name) := by
          intro j hj
          have := hlast (j + 2) (by omega)
          simpa using this
        rw [flagLoop, if_pos hs, if_pos hn, ih k hk' hlast']
        simp [valueAfter]
  | case5 arg next rest flags hs hn ih =>
    have hn' : startsWithDashes next = true := by simpa using hn
    cases k with
    | zero =>
      simp only [List.getElem?_cons_zero, Option.some.injEq] at hk
      subst hk
      have hrest : ∀ j : Nat, (next :: rest)[j]? ≠ some ("--" ++ name) := by
        intro j
        have := hlast (j + 1) (by omega)
        simpa using this
      rw [flagLoop, if_pos (startsWithDashes_token name), if_neg hn,
        flagLoop_absent name _ _ hrest, slice2_token, Flags.get_set_self _ _ _ hname]
      simp [valueAfter, hn']
    | succ k =>
      have hk' : (next :: rest)[k]? = some ("--" ++ name) := by simpa using hk
      have hlast' : ∀ j : Nat, k < j → (next :: rest)[j]? ≠ some ("--" ++ name) := by
        intro j hj
        have := hlast (j + 1) (by omega)
        simpa using this
      rw [flagLoop, if_pos hs, if_neg hn, ih k hk' hlast']
      simp [valueAfter]
  | case6 arg next rest flags hs ih =>
    cases k with
    | zero =>
      simp only [List.getElem?_cons_zero, Option.some.injEq] at hk
      subst hk
      exact absurd (startsWithDashes_token name) hs
    | succ k =>
      have hk' : (next :: rest)[k]? = some ("--" ++ name) := by simpa using hk
      have hlast' : ∀ j : Nat, k < j → (next :: rest)[j]? ≠ some ("--" ++ name) := by
        intro j hj
        have := hlast (j + 1) (by omega)
        simpa using this
      rw [flagLoop, if_neg hs, ih k hk' hlast']
      simp [valueAfter]

/-- The loop never stores an own property `__proto__`. -/
theorem flagLoop_proto (l : List String) (flags : Flags) :
    (flagLoop l flags).get "__proto__" = flags.get "__proto__" := by
  induction l, flags using flagLoop.induct with
  | case1 flags => simp [flagLoop]
  | case2 arg flags hs => simp [flagLoop, hs, Flags.get_set_proto]
  | case3 arg flags hs => simp [flagLoop, hs]
  | case4 arg next rest flags hs hn ih =>
    rw [flagLoop, if_pos hs, if_pos hn, ih, Flags.get_set_proto]
  | case5 arg next rest flags hs hn ih =>
    rw [flagLoop, if_pos hs, if_neg hn, ih, Flags.get_set_proto]
  | case6 arg next rest flags hs ih =>
    rw [flagLoop, if_neg hs, ih]

theorem Flags.read_own (flags : Flags) (name : String) (v : FlagValue)
    (hname : name ≠ "__proto__") (h : flags.get name = some v) :
    flags.read name = PropertyRead.own v := by
  simp [Flags.read, hname, h]

/-- C14, as the claim states it, fails. In `wallet-balance --__proto__ v` the
token `--__proto__` stands at index 1 and at no later index and is followed by
`v`, which does not start with `--`; yet `flags['__proto__']` is not `v`: the
assignment stores no property and the read gives `Object.prototype`. -/
theorem proto_flag_not_stored :
    ["wallet-balance", "--__proto__", "v"][1]? = some ("--" ++ "__proto__") ∧
    (∀ j : Nat, 1 < j → ["wallet-balance", "--__proto__", "v"][j]? ≠
      some ("--" ++ "__proto__")) ∧
    ["wallet-balance", "--__proto__", "v"][1 + 1]? = some "v" ∧
    startsWithDashes "v" = false ∧
    (mainFlags ["wallet-balance", "--__proto__", "v"]).read "__proto__" =
      PropertyRead.objectPrototype ∧
    (mainFlags ["wallet-balance", "--__proto__", "v"]).read "__proto__" ≠
      PropertyRead.own (FlagValue.value "v") ∧
    (mainFlags ["wallet-balance", "--__proto__", "v"]).get "__proto__" = none := by
  refine ⟨by decide, ?_, by decide, by decide, by decide, by decide, by decide⟩
  intro j hj
  match j, hj with
  | 2, _ => decide
  | j + 3, _ => simp

/-- C14, amended. For every argument list `args` and every name other than
`__proto__`: if `--name` stands at an index `i ≥ 1` and at no later index,
then `flags[name]` is `true` when `--name` is the last argument or the
argument after it starts with `--`, and otherwise is the argument after it. A
name whose token `--name` stands at no index `≥ 1` has no property stored, so
the command at index 0 is not read as a flag and an argument that does not
start with `--` sets nothing. No property `__proto__` is ever stored, and
`flags['__proto__']` is `Object.prototype`. `rails settle-all --key YOUR_KEY
--yes` gives `key = 'YOUR_KEY'` and `yes = true`. -/
theorem main_flags (args : List String) :
    (∀ (i : Nat) (name : String), 1 ≤ i → name ≠ "__proto__" →
      args[i]? = some ("--" ++ name) →
      (∀ j : Nat, i < j → args[j]? ≠ some ("--" ++ name)) →
      ((args[i + 1]? = none ∨ ∃ next, args[i + 1]? = some next ∧
          startsWithDashes next = true) →
        (mainFlags args).read name = PropertyRead.own FlagValue.flag) ∧
      (∀ next, args[i + 1]? = some next → startsWithDashes next = false →
        (mainFlags args).read name = PropertyRead.own (FlagValue.value next))) ∧
    (∀ name : String, (∀ i : Nat, 1 ≤ i → args[i]? ≠ some ("--" ++ name)) →
      (mainFlags args).get name = none) ∧
    ((mainFlags args).get "__proto__" = none ∧
      (mainFlags args).read "__proto__" = PropertyRead.objectPrototype) ∧
    (mainFlags ["rails", "settle-all", "--key", "YOUR_KEY", "--yes"]).read "key" =
      PropertyRead.own (FlagValue.value "YOUR_KEY") ∧
    (mainFlags ["rails", "settle-all", "--key", "YOUR_KEY", "--yes"]).read "yes" =
      PropertyRead.own FlagValue.flag := by
  refine ⟨?_, ?_, ⟨?_, ?_⟩, by decide, by decide⟩
  · intro i name hi hname htoken hlast
    obtain ⟨k, rfl⟩ : ∃ k, i = k + 1 := ⟨i - 1, by omega⟩
    have hk : (args.drop 1)[k]? = some ("--" ++ name) := by
      rw [List.getElem?_drop, Nat.add_comm]
      exact htoken
    have hl : ∀ j : Nat, k < j → (args.drop 1)[j]? ≠ some ("--" ++ name) := by
      intro j hj
      rw [List.getElem?_drop, Nat.add_comm]
      exact hlast (j + 1) (by omega)
    have hget := flagLoop_last name hname (args.drop 1) Flags.empty k hk hl
    have hnext : (args.drop 1)[k + 1]? = args[k + 1 + 1]? := by
      rw [List.getElem?_drop, Nat.add_comm]
    have hread := Flags.read_own (mainFlags args) name _ hname hget
    rw [hread]
    unfold valueAfter
    rw [hnext]
    constructor
    · intro h
      rcases h with h | ⟨next, h, hs⟩
      · rw [h]
      · rw [h]
        simp [hs]
    · intro next h hs
      rw [h]
      simp [hs]
  · intro name habsent
    have hl : ∀ j : Nat, (args.drop 1)[j]? ≠ some ("--" ++ name) := by
      intro j
      rw [List.getElem?_drop, Nat.add_comm]
      exact habsent (j + 1) (by omega)
    unfold mainFlags
    rw [flagLoop_absent name (args.drop 1) Flags.empty hl]
    rfl
  · unfold mainFlags
    rw [flagLoop_proto]
    rfl
  · simp [Flags.read]

theorem main_flags_witness :
    (1 ≤ 2 ∧ "key" ≠ "__proto__" ∧
      ["rails", "settle-all", "--key", "YOUR_KEY", "--yes"][2]? = some ("--" ++ "key") ∧
      (∀ j : Nat, 2 < j →
        ["rails", "settle-all", "--key", "YOUR_KEY", "--yes"][j]? ≠ some ("--" ++ "key")) ∧
      ["rails", "settle-all", "--key", "YOUR_KEY", "--yes"][2 + 1]? = some "YOUR_KEY" ∧
      startsWithDashes "YOUR_KEY" = false) ∧
    (mainFlags ["rails", "settle-all", "--key", "YOUR_KEY", "--yes"]).read "key" =
      PropertyRead.own (FlagValue.value "YOUR_KEY") :=
  have hlast : ∀ j : Nat, 2 < j →
      ["rails", "settle-all", "--key", "YOUR_KEY", "--yes"][j]? ≠ some ("--" ++ "key") := by
    intro j hj
    match j, hj with
    | 3, _ => decide
    | 4, _ => decide
    | j + 5, _ => simp
  ⟨⟨by decide, by decide, by decide, hlast, by decide, by decide⟩,
    ((main_flags ["rails", "settle-all", "--key", "YOUR_KEY", "--yes"]).1 2 "key"
      (by decide) (by decide) (by decide) hlast).2 "YOUR_KEY" (by decide) (by decide)⟩

end FilPay
